import Mathlib

/-!
# Exposure Render: device-resource binding layer

A shallow embedding of `Source/CudaUtilities.h` (the static `CUDA` wrapper class and the
`CudaList` resource table) and of `Source/VtkErVolumeInfo.cpp` (the volume binding manager),
together with the properties of the written specification that concern them.

Conventions of the embedding

* The CUDA runtime is not part of the repository.  It is represented by a `Backend` value
  that is threaded through every wrapper: the status code each runtime call returns is read
  from a script (`Backend.script`, exhausted script = `cudaSuccess`), every runtime call is
  appended to `Backend.trace`, and the effects the table relies on (buffer allocation,
  release, typed host-to-device copies, symbol publication, array allocation and texture
  binding) are recorded in the remaining fields.
* A C++ exception leaves the objects it unwinds through as they are.  Every embedded
  function therefore returns the exception it throws (if any) *together with* the state
  reached at that point, including the values of by-reference parameters.
* `std::map<int, V>` is a key-ordered association list `List (Int × V)`.
* `int` values are mathematical integers.  The only `int` that grows without bound is
  `ResourceCounter`; signed overflow is undefined behaviour in C++, and the embedding
  coincides with the machine type on every execution that assigns fewer than `2^31` handles.
* `float` and `double` values are exact rationals, with one extra value for the outcome of a
  division by zero; rounding is not modelled.
-/

namespace ExposureRender

/-! ## Exceptions (`Exception.h`, used through its constructor only) -/

/-- The severity levels `Enums::Warning`, `Enums::Error`, `Enums::Fatal`. -/
inductive Enums
  | Warning
  | Error
  | Fatal
  deriving DecidableEq, Repr

/-- An exception value: `Exception(Level, Message)`. -/
structure Exception where
  Level : Enums
  Message : String
  deriving DecidableEq, Repr

/-- What a call threw, `none` when it returned normally. -/
abbrev Thrown := Option Exception

/-! ## The CUDA runtime -/

/-- Status code of a runtime call. -/
abbrev cudaError_t := Nat

/-- The success status. -/
def cudaSuccess : cudaError_t := 0

/-- A device address; `none` is `NULL`. -/
abbrev DevPtr := Option Nat

/-- An address in host memory (a voxel buffer handed to a texture bind). -/
abbrev HostPtr := Nat

/-- Direction of a `cudaMemcpy`. -/
inductive cudaMemcpyKind
  | cudaMemcpyHostToDevice
  | cudaMemcpyDeviceToHost
  | cudaMemcpyDeviceToDevice
  deriving DecidableEq, Repr

/-- Texture filter mode. -/
inductive cudaTextureFilterMode
  | cudaFilterModePoint
  | cudaFilterModeLinear
  deriving DecidableEq, Repr

/-- Texture address mode. -/
inductive cudaTextureAddressMode
  | cudaAddressModeWrap
  | cudaAddressModeClamp
  | cudaAddressModeMirror
  | cudaAddressModeBorder
  deriving DecidableEq, Repr

/-- The fields of a `textureReference` the wrapper writes; `ref` stands for the address of
the reference, under which the runtime knows the texture. -/
structure textureReference where
  ref : Nat
  normalized : Bool
  filterMode : cudaTextureFilterMode
  addressMode0 : cudaTextureAddressMode
  addressMode1 : cudaTextureAddressMode
  addressMode2 : cudaTextureAddressMode
  deriving DecidableEq, Repr

/-- One call into the CUDA runtime, with the device-side arguments it was given.  Sizes are
counted in elements (the source multiplies them by `sizeof(T)`). -/
inductive CudaCall
  | cudaThreadSynchronize
  | cudaMalloc (Num : Int)
  | cudaMallocPitch (Width Height : Int)
  | cudaMemset (devPtr : DevPtr) (Value Num : Int)
  | cudaMemcpyToSymbol (symbol : String) (Num : Int)
  | cudaMemcpy (dst src : DevPtr) (Num : Int) (kind : cudaMemcpyKind)
  | cudaFreeArray (array : DevPtr)
  | cudaFree (devPtr : DevPtr)
  | cudaUnbindTexture (texref : Nat)
  | cudaMallocArray (Width Height : Int)
  | cudaMalloc3DArray (Width Height Depth : Int)
  | cudaMemcpyToArray (dst : DevPtr) (src : HostPtr) (Num : Int)
  | cudaMemcpy3D (dst : DevPtr) (src : HostPtr) (Width Height Depth : Int)
  | cudaBindTextureToArray (texref : Nat) (array : DevPtr)
  | cudaGetSymbolAddress (symbol : String)
  deriving DecidableEq, Repr

/-- A device array (`cudaArray`): its address, extent and the host buffer last copied in. -/
structure ArrayObj where
  addr : Nat
  Width : Int
  Height : Int
  Depth : Int
  source : Option HostPtr
  deriving DecidableEq, Repr

/-- State of the CUDA runtime as far as the wrapper can observe it.  `T` is the element type
of the linear device buffers; a cell is `none` until a host copy has written it. -/
structure Backend (T : Type) where
  script : List cudaError_t
  trace : List CudaCall
  memory : List (Nat × List (Option T))
  arrays : List ArrayObj
  textures : List (Nat × DevPtr)
  symbols : List (String × DevPtr)
  symbolAddresses : List (String × Nat)
  next : Nat

variable {T : Type}

/-- Issue one runtime call: take its status from the script and record it in the trace. -/
def Backend.issue (c : CudaCall) (b : Backend T) : cudaError_t × Backend T :=
  (b.script.headD cudaSuccess, { b with script := b.script.tail, trace := b.trace ++ [c] })

/-- The runtime after it has answered the call `c` (whatever the answer was). -/
def Backend.advance (c : CudaCall) (b : Backend T) : Backend T :=
  { b with script := b.script.tail, trace := b.trace ++ [c] }

/-- Every runtime call still to come succeeds. -/
def Backend.allSucceed (b : Backend T) : Prop :=
  ∀ e ∈ b.script, e = cudaSuccess

instance (b : Backend T) : Decidable b.allSucceed := by
  unfold Backend.allSucceed; infer_instance

/-- The calls an operation added to the trace begin with a full-queue synchronize and end
with a full-queue synchronize, with at least one call of the operation in between. -/
def Sandwiched (before after : List CudaCall) : Prop :=
  ∃ own, own ≠ [] ∧
    after = before ++ (CudaCall.cudaThreadSynchronize :: own ++ [CudaCall.cudaThreadSynchronize])

/-- A runtime without allocations whose next call fails with status `1`. -/
def Backend.failing : Backend T :=
  { script := [1], trace := [], memory := [], arrays := [], textures := [], symbols := [],
    symbolAddresses := [], next := 1 }

/-- A runtime without allocations that answers `cudaSuccess` to every call. -/
def Backend.idle : Backend T :=
  { script := [], trace := [], memory := [], arrays := [], textures := [], symbols := [],
    symbolAddresses := [], next := 1 }

/-- The cells of the linear buffer at `p`, if `p` is a live allocation. -/
def Backend.buffer (b : Backend T) (p : DevPtr) : Option (List (Option T)) :=
  match p with
  | none => none
  | some a => (b.memory.find? (fun e => e.1 == a)).map Prod.snd

/-- The pointer value last published into the device symbol `symbol`. -/
def Backend.symbolValue (b : Backend T) (symbol : String) : Option DevPtr :=
  (b.symbols.find? (fun e => e.1 == symbol)).map Prod.snd

/-- Runtime `cudaGetErrorString`. -/
def cudaGetErrorString (e : cudaError_t) : String :=
  if e = cudaSuccess then "no error" else "cuda error " ++ toString e

/-- Cells of a buffer after the first `Num` cells were overwritten from `pHost`. -/
def writeCells (pHost : List (Option T)) (Num : Nat) (cells : List (Option T)) :
    List (Option T) :=
  ((pHost.take Num) ++ cells.drop Num).take cells.length

/-- Effect of a successful `cudaMalloc` of `Num` cells: a fresh buffer at address `next`. -/
def Backend.allocated (Num : Nat) (b : Backend T) : Backend T :=
  { b with memory := (b.next, List.replicate Num none) :: b.memory, next := b.next + 1 }

/-- Effect of a successful `cudaFree`: the buffer is gone (`cudaFree(NULL)` does nothing). -/
def Backend.released (devPtr : DevPtr) (b : Backend T) : Backend T :=
  { b with memory := b.memory.filter (fun e => some e.1 != devPtr) }

/-- Effect of a successful copy of `Num` cells into the buffer at `dst`. -/
def Backend.written (dst : DevPtr) (data : List (Option T)) (Num : Nat) (b : Backend T) :
    Backend T :=
  { b with memory := b.memory.map (fun e =>
      if some e.1 = dst then (e.1, writeCells data Num e.2) else e) }

/-- Effect of a successful copy of a device pointer into a device symbol. -/
def Backend.published (symbol : String) (value : DevPtr) (b : Backend T) : Backend T :=
  { b with symbols := (symbol, value) :: b.symbols.filter (fun e => e.1 != symbol) }

/-- Effect of a successful array allocation: a fresh array at address `next`. -/
def Backend.arrayAllocated (Width Height Depth : Int) (b : Backend T) : Backend T :=
  { b with arrays := ⟨b.next, Width, Height, Depth, none⟩ :: b.arrays, next := b.next + 1 }

/-- Effect of a successful `cudaFreeArray` (`cudaFreeArray(NULL)` does nothing). -/
def Backend.arrayReleased (array : DevPtr) (b : Backend T) : Backend T :=
  { b with arrays := b.arrays.filter (fun a => some a.addr != array) }

/-- Effect of a successful host copy into the array at `dst`. -/
def Backend.arrayFilled (dst : DevPtr) (src : HostPtr) (b : Backend T) : Backend T :=
  { b with arrays := b.arrays.map (fun a =>
      if some a.addr = dst then { a with source := some src } else a) }

/-- Effect of a successful `cudaBindTextureToArray`. -/
def Backend.textureBound (texref : Nat) (array : DevPtr) (b : Backend T) : Backend T :=
  { b with textures := (texref, array) :: b.textures.filter (fun e => e.1 != texref) }

/-- Effect of a successful `cudaUnbindTexture`. -/
def Backend.textureUnbound (texref : Nat) (b : Backend T) : Backend T :=
  { b with textures := b.textures.filter (fun e => e.1 != texref) }

/-- Runtime `cudaThreadSynchronize`. -/
def cudaThreadSynchronize (b : Backend T) : cudaError_t × Backend T :=
  b.issue .cudaThreadSynchronize

/-- Runtime `cudaMalloc`: on success a fresh buffer of `Num` unwritten cells, whose address
is stored through the pointer argument. -/
def cudaMalloc (devPtr : DevPtr) (Num : Int) (b : Backend T) : cudaError_t × DevPtr × Backend T :=
  let r := b.issue (.cudaMalloc Num)
  if r.1 = cudaSuccess then (r.1, some r.2.next, r.2.allocated Num.toNat)
  else (r.1, devPtr, r.2)

/-- Runtime `cudaMallocPitch`: as `cudaMalloc`, for `Width * Height` cells. -/
def cudaMallocPitch (devPtr : DevPtr) (Width Height : Int) (b : Backend T) :
    cudaError_t × DevPtr × Backend T :=
  let r := b.issue (.cudaMallocPitch Width Height)
  if r.1 = cudaSuccess then (r.1, some r.2.next, r.2.allocated (Width * Height).toNat)
  else (r.1, devPtr, r.2)

/-- Runtime `cudaMemset`; the byte pattern it writes is not tracked. -/
def cudaMemset (devPtr : DevPtr) (Value Num : Int) (b : Backend T) : cudaError_t × Backend T :=
  b.issue (.cudaMemset devPtr Value Num)

/-- Runtime `cudaMemcpyToSymbol` of data; symbol contents other than pointers are not tracked. -/
def cudaMemcpyToSymbol (symbol : String) (Num : Int) (b : Backend T) : cudaError_t × Backend T :=
  b.issue (.cudaMemcpyToSymbol symbol Num)

/-- Runtime `cudaMemcpyToSymbol` of one device pointer: on success the symbol holds it. -/
def cudaMemcpyPointerToSymbol (symbol : String) (value : DevPtr) (Num : Int) (b : Backend T) :
    cudaError_t × Backend T :=
  let r := b.issue (.cudaMemcpyToSymbol symbol Num)
  if r.1 = cudaSuccess then (r.1, r.2.published symbol value) else r

/-- Runtime `cudaMemcpy`, host to device: on success the first `Num` cells of the buffer at
`dst` hold the host data. -/
def cudaMemcpyHostToDevice (dst : DevPtr) (pHost : List T) (Num : Int) (b : Backend T) :
    cudaError_t × Backend T :=
  let r := b.issue (.cudaMemcpy dst none Num .cudaMemcpyHostToDevice)
  if r.1 = cudaSuccess then (r.1, r.2.written dst (pHost.map some) Num.toNat) else r

/-- Runtime `cudaMemcpy`, device to host: the status, and the cells read. -/
def cudaMemcpyDeviceToHost (src : DevPtr) (Num : Int) (b : Backend T) :
    cudaError_t × List (Option T) × Backend T :=
  let r := b.issue (.cudaMemcpy none src Num .cudaMemcpyDeviceToHost)
  (r.1, if r.1 = cudaSuccess then ((b.buffer src).getD []).take Num.toNat else [], r.2)

/-- Runtime `cudaMemcpy`, device to device. -/
def cudaMemcpyDeviceToDevice (dst src : DevPtr) (Num : Int) (b : Backend T) :
    cudaError_t × Backend T :=
  let r := b.issue (.cudaMemcpy dst src Num .cudaMemcpyDeviceToDevice)
  if r.1 = cudaSuccess then (r.1, r.2.written dst ((b.buffer src).getD []) Num.toNat) else r

/-- Runtime `cudaFree`. -/
def cudaFree (devPtr : DevPtr) (b : Backend T) : cudaError_t × Backend T :=
  let r := b.issue (.cudaFree devPtr)
  if r.1 = cudaSuccess then (r.1, r.2.released devPtr) else r

/-- Runtime `cudaFreeArray`. -/
def cudaFreeArray (array : DevPtr) (b : Backend T) : cudaError_t × Backend T :=
  let r := b.issue (.cudaFreeArray array)
  if r.1 = cudaSuccess then (r.1, r.2.arrayReleased array) else r

/-- Runtime `cudaUnbindTexture`. -/
def cudaUnbindTexture (texref : Nat) (b : Backend T) : cudaError_t × Backend T :=
  let r := b.issue (.cudaUnbindTexture texref)
  if r.1 = cudaSuccess then (r.1, r.2.textureUnbound texref) else r

/-- Runtime `cudaMallocArray`: on success a fresh `Width x Height` array. -/
def cudaMallocArray (array : DevPtr) (Width Height : Int) (b : Backend T) :
    cudaError_t × DevPtr × Backend T :=
  let r := b.issue (.cudaMallocArray Width Height)
  if r.1 = cudaSuccess then (r.1, some r.2.next, r.2.arrayAllocated Width Height 0)
  else (r.1, array, r.2)

/-- Runtime `cudaMalloc3DArray`: on success a fresh array of the given extent. -/
def cudaMalloc3DArray (array : DevPtr) (Width Height Depth : Int) (b : Backend T) :
    cudaError_t × DevPtr × Backend T :=
  let r := b.issue (.cudaMalloc3DArray Width Height Depth)
  if r.1 = cudaSuccess then (r.1, some r.2.next, r.2.arrayAllocated Width Height Depth)
  else (r.1, array, r.2)

/-- Runtime `cudaMemcpyToArray` from host memory. -/
def cudaMemcpyToArray (dst : DevPtr) (src : HostPtr) (Num : Int) (b : Backend T) :
    cudaError_t × Backend T :=
  let r := b.issue (.cudaMemcpyToArray dst src Num)
  if r.1 = cudaSuccess then (r.1, r.2.arrayFilled dst src) else r

/-- Runtime `cudaMemcpy3D` from host memory into an array. -/
def cudaMemcpy3D (dst : DevPtr) (src : HostPtr) (Width Height Depth : Int) (b : Backend T) :
    cudaError_t × Backend T :=
  let r := b.issue (.cudaMemcpy3D dst src Width Height Depth)
  if r.1 = cudaSuccess then (r.1, r.2.arrayFilled dst src) else r

/-- Runtime `cudaBindTextureToArray`: on success the texture samples the array. -/
def cudaBindTextureToArray (texref : Nat) (array : DevPtr) (b : Backend T) :
    cudaError_t × Backend T :=
  let r := b.issue (.cudaBindTextureToArray texref array)
  if r.1 = cudaSuccess then (r.1, r.2.textureBound texref array) else r

/-- Runtime `cudaGetSymbolAddress`: the status and, on success, the symbol's address. -/
def cudaGetSymbolAddress (pDevicePointer : DevPtr) (pSymbol : String) (b : Backend T) :
    cudaError_t × DevPtr × Backend T :=
  let r := b.issue (.cudaGetSymbolAddress pSymbol)
  if r.1 = cudaSuccess then
    (r.1, (r.2.symbolAddresses.find? (fun e => e.1 == pSymbol)).map Prod.snd, r.2)
  else (r.1, pDevicePointer, r.2)

/-! ## The static class `CUDA` -/

namespace CUDA

/-- Source of `CUDA::HandleCudaError`: throw an `Enums::Error` exception carrying the runtime
message and the title unless the status is `cudaSuccess`. -/
def HandleCudaError (CudaError : cudaError_t) (pTitle : String) : Thrown :=
  if CudaError ≠ cudaSuccess then
    some ⟨Enums.Error, cudaGetErrorString CudaError ++ " (" ++ pTitle ++ ")"⟩
  else none

/-- Source of `CUDA::ThreadSynchronize`. -/
def ThreadSynchronize (b : Backend T) : Thrown × Backend T :=
  let r := cudaThreadSynchronize b
  (HandleCudaError r.1 "cudaThreadSynchronize", r.2)

/-- Source of `CUDA::Allocate`; the second component is `pDevicePointer` after the call. -/
def Allocate (pDevicePointer : DevPtr) (Num : Int) (b : Backend T) : Thrown × DevPtr × Backend T :=
  match ThreadSynchronize b with
  | (some e, b1) => (some e, pDevicePointer, b1)
  | (none, b1) =>
    let r := cudaMalloc pDevicePointer Num b1
    match HandleCudaError r.1 "cudaMalloc" with
    | some e => (some e, r.2.1, r.2.2)
    | none =>
      let s := ThreadSynchronize r.2.2
      (s.1, r.2.1, s.2)

/-- Source of `CUDA::AllocatePiched`. -/
def AllocatePiched (pDevicePointer : DevPtr) (_Pitch Width Height : Int) (b : Backend T) :
    Thrown × DevPtr × Backend T :=
  match ThreadSynchronize b with
  | (some e, b1) => (some e, pDevicePointer, b1)
  | (none, b1) =>
    let r := cudaMallocPitch pDevicePointer Width Height b1
    match HandleCudaError r.1 "cudaMallocPitch" with
    | some e => (some e, r.2.1, r.2.2)
    | none =>
      let s := ThreadSynchronize r.2.2
      (s.1, r.2.1, s.2)

/-- Source of `CUDA::MemSet`. -/
def MemSet (pDevicePointer : DevPtr) (Value Num : Int) (b : Backend T) : Thrown × Backend T :=
  match ThreadSynchronize b with
  | (some e, b1) => (some e, b1)
  | (none, b1) =>
    let r := cudaMemset pDevicePointer Value Num b1
    match HandleCudaError r.1 "cudaMemset" with
    | some e => (some e, r.2)
    | none => ThreadSynchronize r.2

/-- Source of `CUDA::HostToConstantDevice`. -/
def HostToConstantDevice (pDeviceSymbol : String) (Num : Int) (b : Backend T) :
    Thrown × Backend T :=
  match ThreadSynchronize b with
  | (some e, b1) => (some e, b1)
  | (none, b1) =>
    let r := cudaMemcpyToSymbol pDeviceSymbol Num b1
    match HandleCudaError r.1 "cudaMemcpyToSymbol" with
    | some e => (some e, r.2)
    | none => ThreadSynchronize r.2

/-- Source of `CUDA::MemCopyHostToDeviceSymbol`, for host data that is one device pointer
(the only instantiation in the sources: `CudaList::Synchronize` publishes `DevicePtr`). -/
def MemCopyHostToDeviceSymbol (pHost : DevPtr) (pDeviceSymbol : String) (Num : Int)
    (b : Backend T) : Thrown × Backend T :=
  match ThreadSynchronize b with
  | (some e, b1) => (some e, b1)
  | (none, b1) =>
    let r := cudaMemcpyPointerToSymbol pDeviceSymbol pHost Num b1
    match HandleCudaError r.1 "cudaMemcpyToSymbol" with
    | some e => (some e, r.2)
    | none => ThreadSynchronize r.2

/-- Source of `CUDA::MemCopyDeviceToDeviceSymbol`. -/
def MemCopyDeviceToDeviceSymbol (pDeviceSymbol : String) (Num : Int) (b : Backend T) :
    Thrown × Backend T :=
  match ThreadSynchronize b with
  | (some e, b1) => (some e, b1)
  | (none, b1) =>
    let r := cudaMemcpyToSymbol pDeviceSymbol Num b1
    match HandleCudaError r.1 "cudaMemcpyToSymbol" with
    | some e => (some e, r.2)
    | none => ThreadSynchronize r.2

/-- Source of `CUDA::MemCopyHostToDevice`; `pHost` is the content of the host array. -/
def MemCopyHostToDevice (pHost : List T) (pDevice : DevPtr) (Num : Int) (b : Backend T) :
    Thrown × Backend T :=
  match ThreadSynchronize b with
  | (some e, b1) => (some e, b1)
  | (none, b1) =>
    let r := cudaMemcpyHostToDevice pDevice pHost Num b1
    match HandleCudaError r.1 "cudaMemcpy" with
    | some e => (some e, r.2)
    | none => ThreadSynchronize r.2

/-- Source of `CUDA::MemCopyDeviceToHost`; the second component is what was read into `pHost`. -/
def MemCopyDeviceToHost (pDevice : DevPtr) (Num : Int) (b : Backend T) :
    Thrown × List (Option T) × Backend T :=
  match ThreadSynchronize b with
  | (some e, b1) => (some e, [], b1)
  | (none, b1) =>
    let r := cudaMemcpyDeviceToHost pDevice Num b1
    match HandleCudaError r.1 "cudaMemcpy" with
    | some e => (some e, r.2.1, r.2.2)
    | none =>
      let s := ThreadSynchronize r.2.2
      (s.1, r.2.1, s.2)

/-- Source of `CUDA::MemCopyDeviceToDevice`. -/
def MemCopyDeviceToDevice (pDeviceSource pDeviceDestination : DevPtr) (Num : Int)
    (b : Backend T) : Thrown × Backend T :=
  match ThreadSynchronize b with
  | (some e, b1) => (some e, b1)
  | (none, b1) =>
    let r := cudaMemcpyDeviceToDevice pDeviceDestination pDeviceSource Num b1
    match HandleCudaError r.1 "cudaMemcpy" with
    | some e => (some e, r.2)
    | none => ThreadSynchronize r.2

/-- Source of `CUDA::FreeArray`; the second component is `pCudaArray` after the call. -/
def FreeArray (pCudaArray : DevPtr) (b : Backend T) : Thrown × DevPtr × Backend T :=
  match ThreadSynchronize b with
  | (some e, b1) => (some e, pCudaArray, b1)
  | (none, b1) =>
    let r := cudaFreeArray pCudaArray b1
    match HandleCudaError r.1 "cudaFreeArray" with
    | some e => (some e, pCudaArray, r.2)
    | none =>
      let s := ThreadSynchronize r.2
      (s.1, none, s.2)

/-- Source of `CUDA::Free`; the second component is `pBuffer` after the call. -/
def Free (pBuffer : DevPtr) (b : Backend T) : Thrown × DevPtr × Backend T :=
  if pBuffer = none then (none, pBuffer, b)
  else
    match ThreadSynchronize b with
    | (some e, b1) => (some e, pBuffer, b1)
    | (none, b1) =>
      let r := cudaFree pBuffer b1
      match HandleCudaError r.1 "cudaFree" with
      | some e => (some e, pBuffer, r.2)
      | none =>
        let s := ThreadSynchronize r.2
        (s.1, none, s.2)

/-- Source of `CUDA::UnbindTexture`. -/
def UnbindTexture (pTextureReference : textureReference) (b : Backend T) : Thrown × Backend T :=
  match ThreadSynchronize b with
  | (some e, b1) => (some e, b1)
  | (none, b1) =>
    let r := cudaUnbindTexture pTextureReference.ref b1
    match HandleCudaError r.1 "cudaUnbindTexture" with
    | some e => (some e, r.2)
    | none => ThreadSynchronize r.2

/-- Values of the by-reference parameters of a texture bind after the call. -/
structure TextureArgs where
  TextureReference : textureReference
  pCudaArray : DevPtr
  deriving DecidableEq, Repr

/-- Source of `CUDA::BindTexture1D`. -/
def BindTexture1D (TextureReference : textureReference) (Num : Int) (pBuffer : HostPtr)
    (pCudaArray : DevPtr) (TextureFilterMode : cudaTextureFilterMode)
    (TextureAddressMode : cudaTextureAddressMode) (Normalized : Bool) (b : Backend T) :
    Thrown × TextureArgs × Backend T :=
  match ThreadSynchronize b with
  | (some e, b1) => (some e, ⟨TextureReference, pCudaArray⟩, b1)
  | (none, b1) =>
    let tex : textureReference :=
      { TextureReference with normalized := Normalized, filterMode := TextureFilterMode,
                              addressMode0 := TextureAddressMode }
    match FreeArray pCudaArray b1 with
    | (some e, p2, b2) => (some e, ⟨tex, p2⟩, b2)
    | (none, p2, b2) =>
      let r3 := cudaMallocArray p2 Num 1 b2
      match HandleCudaError r3.1 "" with
      | some e => (some e, ⟨tex, r3.2.1⟩, r3.2.2)
      | none =>
        let r4 := cudaMemcpyToArray r3.2.1 pBuffer Num r3.2.2
        match HandleCudaError r4.1 "" with
        | some e => (some e, ⟨tex, r3.2.1⟩, r4.2)
        | none =>
          let r5 := cudaBindTextureToArray tex.ref r3.2.1 r4.2
          match HandleCudaError r5.1 "" with
          | some e => (some e, ⟨tex, r3.2.1⟩, r5.2)
          | none =>
            let s := ThreadSynchronize r5.2
            (s.1, ⟨tex, r3.2.1⟩, s.2)

/-- Source of `CUDA::BindTexture3D`; `Extent` is the array `int Extent[3]`. -/
def BindTexture3D (TextureReference : textureReference) (Extent : Int × Int × Int)
    (pBuffer : HostPtr) (pCudaArray : DevPtr) (TextureFilterMode : cudaTextureFilterMode)
    (TextureAddressMode : cudaTextureAddressMode) (Normalized : Bool) (b : Backend T) :
    Thrown × TextureArgs × Backend T :=
  match ThreadSynchronize b with
  | (some e, b1) => (some e, ⟨TextureReference, pCudaArray⟩, b1)
  | (none, b1) =>
    let r2 := cudaMalloc3DArray pCudaArray Extent.1 Extent.2.1 Extent.2.2 b1
    match HandleCudaError r2.1 "" with
    | some e => (some e, ⟨TextureReference, r2.2.1⟩, r2.2.2)
    | none =>
      let r3 := cudaMemcpy3D r2.2.1 pBuffer Extent.1 Extent.2.1 Extent.2.2 r2.2.2
      match HandleCudaError r3.1 "" with
      | some e => (some e, ⟨TextureReference, r2.2.1⟩, r3.2)
      | none =>
        let tex : textureReference :=
          { TextureReference with normalized := Normalized, filterMode := TextureFilterMode,
                                  addressMode0 := TextureAddressMode,
                                  addressMode1 := TextureAddressMode,
                                  addressMode2 := TextureAddressMode }
        let r4 := cudaBindTextureToArray tex.ref r2.2.1 r3.2
        match HandleCudaError r4.1 "" with
        | some e => (some e, ⟨tex, r2.2.1⟩, r4.2)
        | none =>
          let s := ThreadSynchronize r4.2
          (s.1, ⟨tex, r2.2.1⟩, s.2)

/-- Source of `CUDA::GetSymbolAddress`; the second component is `*pDevicePointer` after the
call. -/
def GetSymbolAddress (pDevicePointer : DevPtr) (pSymbol : String) (b : Backend T) :
    Thrown × DevPtr × Backend T :=
  match ThreadSynchronize b with
  | (some e, b1) => (some e, pDevicePointer, b1)
  | (none, b1) =>
    let r := cudaGetSymbolAddress pDevicePointer pSymbol b1
    (HandleCudaError r.1 "cudaGetSymbolAddress", r.2.1, r.2.2)

end CUDA

/-! ## `std::map<int, V>` -/

namespace OrderedMap

variable {V : Type}

/-- Model of `map::find`: the value stored under `k`, `none` for `end()`. -/
def find (k : Int) : List (Int × V) → Option V
  | [] => none
  | (k', v) :: rest => if k' = k then some v else find k rest

/-- Store `v` under `k`, keeping the entries in ascending key order. -/
def assign (k : Int) (v : V) : List (Int × V) → List (Int × V)
  | [] => [(k, v)]
  | (k', v') :: rest =>
    if k < k' then (k, v) :: (k', v') :: rest
    else if k = k' then (k, v) :: rest
    else (k', v') :: assign k v rest

/-- Model of `map::operator[]`: the value of the slot for `k`, and the map, into which a
default-constructed value `d` has been inserted when `k` was absent. -/
def subscript (d : V) (k : Int) (m : List (Int × V)) : V × List (Int × V) :=
  match find k m with
  | some v => (v, m)
  | none => (d, assign k d m)

/-- Model of `map::erase` at the position of key `k`. -/
def erase (k : Int) (m : List (Int × V)) : List (Int × V) :=
  m.filter (fun e => e.1 != k)

/-- The keys in iteration order. -/
def keys (m : List (Int × V)) : List Int := m.map Prod.fst

/-- Number of keys of `m` smaller than `k`. -/
def rank (k : Int) (m : List (Int × V)) : Nat := (m.filter (fun e => e.1 < k)).length

/-- The keys are strictly ascending: the representation invariant of `std::map`. -/
def Ascending (m : List (Int × V)) : Prop := m.Pairwise (fun a b => a.1 < b.1)

/-- Dense positions `n, n+1, ...` of the entries in iteration order. -/
def positionsFrom (n : Nat) : List (Int × V) → List (Int × Nat)
  | [] => []
  | (k, _) :: rest => (k, n) :: positionsFrom (n + 1) rest

end OrderedMap

/-! ## The resource table `CudaList<T, MaxSize>` -/

/-- What `CudaList` requires of its element type `T`: a default constructor and the member
`T::FromHost`, which fills the object it is called on from a host-side resource of type `H`.
Neither is defined in the sources, so both are left abstract. -/
class TableEntry (T : Type) (H : outParam Type) where
  construct : T
  FromHost : T → H → T

/-- The data members of `CudaList`.  The two iterator members are scratch variables that every
method assigns before it reads them; they carry no state between calls and are left out.  The
values of `HashMap` are the values of the loop counter `Size` of `Synchronize`, which starts
at `0` and only grows, hence natural numbers.  `DeviceSymbol` is the name handed to the
constructor (the buffer bound `MAX_CHAR_SIZE` is not defined in the sources). -/
structure CudaList (T : Type) where
  ResourceMap : List (Int × T)
  HashMap : List (Int × Nat)
  ResourceCounter : Int
  DeviceSymbol : String
  DevicePtr : DevPtr

/-- Outcome of `Synchronize` and `Unbind`. -/
structure Outcome (T : Type) where
  thrown : Thrown
  list : CudaList T
  backend : Backend T

/-- Outcome of `Bind`; `ID` is the value of the by-reference parameter after the call. -/
structure BindOutcome (T : Type) where
  thrown : Thrown
  ID : Int
  list : CudaList T
  backend : Backend T

namespace CudaList

open OrderedMap

variable {H : Type}

/-- Source of the constructor `CudaList(const char* pDeviceSymbol)`. -/
def create (pDeviceSymbol : String) : CudaList T :=
  { ResourceMap := [], HashMap := [], ResourceCounter := 0, DeviceSymbol := pDeviceSymbol,
    DevicePtr := none }

/-- Source of `CudaList::Exists`. -/
def Exists (s : CudaList T) (ID : Int) : Bool :=
  if ID < 0 then false
  else (find ID s.ResourceMap).isSome

/-- The loop of `Synchronize`: the accumulator is `(pHostList, HashMap, Size)`. -/
def fill : List (Int × T) → List T × List (Int × Nat) × Nat → List T × List (Int × Nat) × Nat
  | [], acc => acc
  | (k, v) :: rest, (pHostList, HashMap, Size) =>
    fill rest (pHostList.set Size v, assign k Size HashMap, Size + 1)

/-- Source of `CudaList::Synchronize`. -/
def Synchronize [TableEntry T H] (s : CudaList T) (b : Backend T) : Outcome T :=
  if s.ResourceMap.length ≤ 0 then ⟨none, s, b⟩
  else
    let pHostList := List.replicate s.ResourceMap.length (TableEntry.construct : T)
    let filled := fill s.ResourceMap (pHostList, s.HashMap, 0)
    let s1 := { s with HashMap := filled.2.1 }
    match CUDA.Free s1.DevicePtr b with
    | (some e, p1, b1) => ⟨some e, { s1 with DevicePtr := p1 }, b1⟩
    | (none, p1, b1) =>
      match CUDA.Allocate p1 (s1.ResourceMap.length : Int) b1 with
      | (some e, p2, b2) => ⟨some e, { s1 with DevicePtr := p2 }, b2⟩
      | (none, p2, b2) =>
        match CUDA.MemCopyHostToDevice filled.1 p2 (filled.2.2 : Int) b2 with
        | (some e, b3) => ⟨some e, { s1 with DevicePtr := p2 }, b3⟩
        | (none, b3) =>
          let r := CUDA.MemCopyHostToDeviceSymbol p2 s1.DeviceSymbol 1 b3
          ⟨r.1, { s1 with DevicePtr := p2 }, r.2⟩

/-- Source of `CudaList::Bind`. -/
def Bind [TableEntry T H] (MaxSize : Nat) (Resource : H) (ID : Int) (s : CudaList T)
    (b : Backend T) : BindOutcome T :=
  if s.ResourceMap.length ≥ MaxSize then
    ⟨some ⟨Enums.Warning, "Maximum number of ResourceMap reached"⟩, ID, s, b⟩
  else
    let Exists := s.Exists ID
    if !Exists then
      let ID1 := s.ResourceCounter
      let slot := subscript (TableEntry.construct : T) ID1 s.ResourceMap
      let s1 := { s with ResourceMap := assign ID1 (TableEntry.FromHost slot.1 Resource) slot.2 }
      let s2 := { s1 with ResourceCounter := s1.ResourceCounter + 1 }
      let r := Synchronize s2 b
      ⟨r.thrown, ID1, r.list, r.backend⟩
    else
      let slot := subscript (TableEntry.construct : T) ID s.ResourceMap
      let s1 := { s with ResourceMap := assign ID (TableEntry.FromHost slot.1 Resource) slot.2 }
      let r := Synchronize s1 b
      ⟨r.thrown, ID, r.list, r.backend⟩

/-- Source of `CudaList::Unbind`. -/
def Unbind [TableEntry T H] (ID : Int) (s : CudaList T) (b : Backend T) : Outcome T :=
  if !s.Exists ID then ⟨none, s, b⟩
  else
    let s1 :=
      if (find ID s.ResourceMap).isSome then { s with ResourceMap := erase ID s.ResourceMap }
      else s
    let s2 :=
      if (find ID s1.HashMap).isSome then { s1 with HashMap := erase ID s1.HashMap }
      else s1
    Synchronize s2 b

/-- Source of `CudaList::operator[]`: the entry returned or the exception thrown, and the
table after the call. -/
def index [TableEntry T H] (s : CudaList T) (i : Int) : Except Exception T × CudaList T :=
  if (find i s.ResourceMap).isNone then
    (.error ⟨Enums.Fatal, "Resource does not exist"⟩, s)
  else
    let slot := subscript (TableEntry.construct : T) i s.ResourceMap
    (.ok slot.1, { s with ResourceMap := slot.2 })

/-- A call made on a table by its user. -/
inductive Call (H : Type)
  | Bind (Resource : H) (ID : Int)
  | Unbind (ID : Int)

/-- Run a sequence of calls on a table, first call first; exceptions are caught by the
caller and the sequence carries on with the table as the throwing call left it. -/
def exec [TableEntry T H] (MaxSize : Nat) :
    List (Call H) → CudaList T × Backend T → CudaList T × Backend T
  | [], st => st
  | .Bind R ID :: rest, st =>
    exec MaxSize rest ((Bind MaxSize R ID st.1 st.2).list, (Bind MaxSize R ID st.1 st.2).backend)
  | .Unbind ID :: rest, st =>
    exec MaxSize rest ((Unbind ID st.1 st.2).list, (Unbind ID st.1 st.2).backend)

/-- The handles that the `Bind` calls of a sequence assigned to new entries, in call order:
a `Bind` assigned a handle when it advanced `ResourceCounter`, and the handle is the value it
left in `ID`. -/
def assignedHandles [TableEntry T H] (MaxSize : Nat) :
    List (Call H) → CudaList T × Backend T → List Int
  | [], _ => []
  | .Bind R ID :: rest, st =>
    (if (Bind MaxSize R ID st.1 st.2).list.ResourceCounter ≠ st.1.ResourceCounter then
        [(Bind MaxSize R ID st.1 st.2).ID]
      else []) ++
      assignedHandles MaxSize rest
        ((Bind MaxSize R ID st.1 st.2).list, (Bind MaxSize R ID st.1 st.2).backend)
  | .Unbind ID :: rest, st =>
    assignedHandles MaxSize rest ((Unbind ID st.1 st.2).list, (Unbind ID st.1 st.2).backend)

/-- The table `Bind` hands to `Synchronize` when it stores `Resource` under `k`. -/
def stored [TableEntry T H] (k : Int) (Resource : H) (m : List (Int × T)) : List (Int × T) :=
  assign k (TableEntry.FromHost (subscript (TableEntry.construct : T) k m).1 Resource)
    (subscript (TableEntry.construct : T) k m).2

/-- The table `Bind` hands to `Synchronize` after it assigned a new handle. -/
def inserted [TableEntry T H] (R : H) (s : CudaList T) : CudaList T :=
  { s with ResourceMap := stored s.ResourceCounter R s.ResourceMap,
           ResourceCounter := s.ResourceCounter + 1 }

/-- The table `Bind` hands to `Synchronize` after it overwrote the entry at `ID`. -/
def overwritten [TableEntry T H] (R : H) (ID : Int) (s : CudaList T) : CudaList T :=
  { s with ResourceMap := stored ID R s.ResourceMap }

/-- The state invariant of a table: ordered keys, all of them handles already handed out,
and a remap table that lists the dense positions of exactly the live handles. -/
structure Inv (s : CudaList T) : Prop where
  asc : Ascending s.ResourceMap
  nonneg : 0 ≤ s.ResourceCounter
  bound : ∀ e ∈ s.ResourceMap, 0 ≤ e.1 ∧ e.1 < s.ResourceCounter
  hash : s.HashMap = positionsFrom 0 s.ResourceMap

/-- The states a table and the runtime can be in after a freshly constructed table has
received a sequence of `Bind` and `Unbind` calls. -/
def Reachable [TableEntry T H] (MaxSize : Nat) (st : CudaList T × Backend T) : Prop :=
  ∃ (pDeviceSymbol : String) (b0 : Backend T) (calls : List (Call H)),
    st = exec MaxSize calls (create pDeviceSymbol, b0)

/-- As `Reachable`, with a runtime in which every call succeeds. -/
def ReachableOk [TableEntry T H] (MaxSize : Nat) (st : CudaList T × Backend T) : Prop :=
  ∃ (pDeviceSymbol : String) (b0 : Backend T) (calls : List (Call H)),
    b0.allSucceed ∧ st = exec MaxSize calls (create pDeviceSymbol, b0)

/-- The device side of a table agrees with its host side: a non-empty table owns a device
buffer that holds its entries in iteration order and whose address is published in the
table's device symbol. -/
def DeviceInSync (s : CudaList T) (b : Backend T) : Prop :=
  s.ResourceMap ≠ [] →
    ∃ a, s.DevicePtr = some a ∧
      b.buffer (some a) = some (s.ResourceMap.map (fun e => some e.2)) ∧
      b.symbolValue s.DeviceSymbol = some (some a)

/-- The capacity-exceeded exception of `Bind`. -/
def capacityExceeded : Exception := ⟨Enums.Warning, "Maximum number of ResourceMap reached"⟩

/-- The not-found exception of `operator[]`. -/
def notFound : Exception := ⟨Enums.Fatal, "Resource does not exist"⟩

end CudaList

/-- A concrete element type for evaluation: entries and host resources are numbers, the
default-constructed entry is `0` and `FromHost` copies the resource. -/
instance instTableEntryNat : TableEntry Nat Nat where
  construct := 0
  FromHost := fun _ r => r

/-- Sample state for evaluation: the table `gpLights` after one `Bind` of the resource `5`
on an idle runtime; it then holds the single entry `0 ↦ 5`. -/
def sampleOne : CudaList Nat × Backend Nat :=
  CudaList.exec 256 [CudaList.Call.Bind 5 (-1)] (CudaList.create "gpLights", Backend.idle)

/-- Sample state for evaluation: one resource bound and unbound again. -/
def sampleEmptied : CudaList Nat × Backend Nat :=
  CudaList.exec 256 [CudaList.Call.Bind 5 (-1), CudaList.Call.Unbind 0]
    (CudaList.create "gpLights", Backend.idle)

/-- Sample state for evaluation: three resources bound, the middle one unbound again. -/
def sampleGap : CudaList Nat × Backend Nat :=
  CudaList.exec 256 [CudaList.Call.Bind 5 (-1), CudaList.Call.Bind 6 (-1),
    CudaList.Call.Bind 7 (-1), CudaList.Call.Unbind 1] (CudaList.create "gpLights", Backend.idle)

/-! ## The volume binding manager `vtkErVolumeInfo` -/

/-- A `float` or `double` value taken as an exact rational; `none` stands for what a division
by zero produces (an infinity or a NaN), which is not a number. -/
abbrev float := Option ℚ

/-- Subtraction of `float` values. -/
def fsub (a b : float) : float :=
  match a, b with
  | some x, some y => some (x - y)
  | _, _ => none

/-- Multiplication of `float` values. -/
def fmul (a b : float) : float :=
  match a, b with
  | some x, some y => some (x * y)
  | _, _ => none

/-- Division of `float` values; a zero divisor yields no number. -/
def fdiv (a b : float) : float :=
  match a, b with
  | some x, some y => if y = 0 then none else some (x / y)
  | _, _ => none

/-- The vector type `Vec3f`. -/
structure Vec3f where
  x : float
  y : float
  z : float
  deriving DecidableEq

/-- A C array of six values, `a[0]` to `a[5]`. -/
structure Array6 (α : Type) where
  a0 : α
  a1 : α
  a2 : α
  a3 : α
  a4 : α
  a5 : α
  deriving DecidableEq

/-- What the manager reads of a `vtkImageData`: the address of its voxel buffer
(`GetScalarPointer`), `GetExtent` (min and max voxel index per axis), `GetBounds` (min and max
coordinate per axis), `GetSpacing` and `GetScalarRange`. -/
structure vtkImageData where
  ScalarPointer : HostPtr
  Extent : Array6 Int
  Bounds : Array6 ℚ
  Spacing : ℚ × ℚ × ℚ
  ScalarRange : ℚ × ℚ
  deriving DecidableEq

/-- The two VTK filters that `SetInputData` runs, as far as their output is read: the voxel
buffer and scalar range of the image that `vtkImageCast` produces, and of the image that
`vtkImageGradientMagnitude` produces.  VTK is not part of the repository. -/
structure Filters where
  castScalars : vtkImageData → HostPtr
  castRange : vtkImageData → ℚ × ℚ
  gradientScalars : vtkImageData → HostPtr
  gradientRange : vtkImageData → ℚ × ℚ

/-- Output of `vtkImageCast` set to `short`: the scalars are converted, the geometry (extent,
bounds, spacing) is that of the input. -/
def Filters.ImageCast (F : Filters) (pInput : vtkImageData) : vtkImageData :=
  { pInput with ScalarPointer := F.castScalars pInput, ScalarRange := F.castRange pInput }

/-- Output of `vtkImageGradientMagnitude`: a derived scalar field on the geometry of the
input. -/
def Filters.GradientMagnitude (F : Filters) (pInput : vtkImageData) : vtkImageData :=
  { pInput with ScalarPointer := F.gradientScalars pInput, ScalarRange := F.gradientRange pInput }

/-- The fields of the volume metadata record `m_VolumeInfo` that the manager writes. -/
structure VolumeInfo where
  m_Extent : Vec3f
  m_InvExtent : Vec3f
  m_IntensityMin : float
  m_IntensityMax : float
  m_IntensityRange : float
  m_IntensityInvRange : float
  m_Spacing : Vec3f
  m_InvSpacing : Vec3f
  m_MinAABB : Vec3f
  m_InvMinAABB : Vec3f
  m_MaxAABB : Vec3f
  m_InvMaxAABB : Vec3f
  m_GradientDelta : float
  m_InvGradientDelta : float
  m_GradientDeltaX : Vec3f
  m_GradientDeltaY : Vec3f
  m_GradientDeltaZ : Vec3f
  m_DensityScale : float
  m_StepSize : float
  m_StepSizeShadow : float
  m_GradientFactor : float
  m_ShadingType : Int
  deriving DecidableEq

/-- The type `cudaExtent`. -/
structure cudaExtent where
  width : Int
  height : Int
  depth : Int
  deriving DecidableEq

/-- Modelled from the spec: the texture state of `Core.cuh`, which is not in the sources.  The
kernel-launch interface (section 6) exposes one bound texture for the intensity field and one
for the gradient-magnitude field; each has its texture reference and its array handle. -/
structure Core where
  gTexIntensity : textureReference
  gpIntensityArray : DevPtr
  gTexGradientMagnitude : textureReference
  gpGradientMagnitudeArray : DevPtr
  deriving DecidableEq

/-- Modelled from the spec: `BindIntensityBuffer` of `Core.cuh`, which is not in the sources.
Section 4.4: the intensity field is bound as a 3D texture via the Device Operation Wrapper;
the buffer handed in is bound to the intensity texture with the wrapper's default filter and
address modes. -/
def BindIntensityBuffer (pBuffer : HostPtr) (Extent : cudaExtent) (c : Core) (b : Backend T) :
    Thrown × Core × Backend T :=
  let r := CUDA.BindTexture3D c.gTexIntensity (Extent.width, Extent.height, Extent.depth) pBuffer
    c.gpIntensityArray .cudaFilterModeLinear .cudaAddressModeClamp true b
  (r.1, { c with gTexIntensity := r.2.1.TextureReference, gpIntensityArray := r.2.1.pCudaArray },
    r.2.2)

/-- Modelled from the spec: `BindGradientMagnitudeBuffer` of `Core.cuh`, which is not in the
sources.  Section 4.4: the gradient-magnitude field is bound as a 3D texture via the Device
Operation Wrapper; the buffer handed in is bound to the gradient-magnitude texture. -/
def BindGradientMagnitudeBuffer (pBuffer : HostPtr) (Extent : cudaExtent) (c : Core)
    (b : Backend T) : Thrown × Core × Backend T :=
  let r := CUDA.BindTexture3D c.gTexGradientMagnitude (Extent.width, Extent.height, Extent.depth)
    pBuffer c.gpGradientMagnitudeArray .cudaFilterModeLinear .cudaAddressModeClamp true b
  (r.1, { c with gTexGradientMagnitude := r.2.1.TextureReference,
                 gpGradientMagnitudeArray := r.2.1.pCudaArray }, r.2.2)

/-- What `Update` reads of a `vtkErVolumeProperty`; the same record holds the values of the
static `Default...()` functions of that class, which is not in the sources. -/
structure vtkErVolumeProperty where
  DensityScale : float
  StepSizeFactorPrimary : float
  StepSizeFactorSecondary : float
  GradientDeltaFactor : float
  GradientFactor : float
  ShadingType : Int
  deriving DecidableEq

/-- The data members of `vtkErVolumeInfo` (`Volume` is only read through `GetVolume()`, whose
result is an argument of `Update`). -/
structure vtkErVolumeInfo where
  m_VolumeInfo : VolumeInfo
  m_pIntensity : Option vtkImageData
  m_pGradientMagnitude : Option vtkImageData
  deriving DecidableEq

/-- Outcome of `SetInputData`: what it threw, the manager, the texture state and the runtime
at that point. -/
structure SetInputOutcome (T : Type) where
  thrown : Thrown
  info : vtkErVolumeInfo
  core : Core
  backend : Backend T

namespace vtkErVolumeInfo

/-- The guarded inverse `x != 0.0f ? 1.0f / x : 0.0f`. -/
def inverseOrZero (x : float) : float :=
  if x ≠ some 0 then fdiv (some 1) x else some 0

/-- Source of the constructor; `VolumeInfo0` is the value-initialised metadata record. -/
def create (VolumeInfo0 : VolumeInfo) : vtkErVolumeInfo :=
  { m_VolumeInfo := VolumeInfo0, m_pIntensity := none, m_pGradientMagnitude := none }

/-- The metadata `SetInputData` derives from the intensity image, in source order. -/
def deriveMetadata (v : VolumeInfo) (Intensity : vtkImageData) : VolumeInfo :=
  let pBounds := Intensity.Bounds
  let v := { v with m_Extent := ⟨some (pBounds.a1 - pBounds.a0), some (pBounds.a3 - pBounds.a2),
                                  some (pBounds.a5 - pBounds.a4)⟩ }
  let v := { v with m_InvExtent := ⟨inverseOrZero v.m_Extent.x, inverseOrZero v.m_Extent.y,
                                     inverseOrZero v.m_Extent.z⟩ }
  let pIntensityRange := Intensity.ScalarRange
  let v := { v with m_IntensityMin := some pIntensityRange.1 }
  let v := { v with m_IntensityMax := some pIntensityRange.2 }
  let v := { v with m_IntensityRange := fsub v.m_IntensityMax v.m_IntensityMin }
  let v := { v with m_IntensityInvRange := fdiv (some 1) v.m_IntensityRange }
  let pSpacing := Intensity.Spacing
  let v := { v with m_Spacing := ⟨some pSpacing.1, some pSpacing.2.1, some pSpacing.2.2⟩ }
  let v := { v with m_InvSpacing := ⟨inverseOrZero v.m_Spacing.x, inverseOrZero v.m_Spacing.y,
                                      inverseOrZero v.m_Spacing.z⟩ }
  let v := { v with m_MinAABB := ⟨some pBounds.a0, some pBounds.a2, some pBounds.a4⟩ }
  let v := { v with m_InvMinAABB := ⟨inverseOrZero v.m_MinAABB.x, inverseOrZero v.m_MinAABB.y,
                                      inverseOrZero v.m_MinAABB.z⟩ }
  let v := { v with m_MaxAABB := ⟨some pBounds.a1, some pBounds.a3, some pBounds.a5⟩ }
  let v := { v with m_InvMaxAABB := ⟨inverseOrZero v.m_MaxAABB.x, inverseOrZero v.m_MaxAABB.y,
                                      inverseOrZero v.m_MaxAABB.z⟩ }
  let v := { v with m_GradientDelta := some 1 }
  let v := { v with m_InvGradientDelta := some 1 }
  let v := { v with m_GradientDeltaX := ⟨v.m_GradientDelta, some 0, some 0⟩ }
  let v := { v with m_GradientDeltaY := ⟨some 0, v.m_GradientDelta, some 0⟩ }
  { v with m_GradientDeltaZ := ⟨some 0, some 0, v.m_GradientDelta⟩ }

/-- Source of `vtkErVolumeInfo::SetInputData`. -/
def SetInputData (F : Filters) (pInputData : Option vtkImageData) (m : vtkErVolumeInfo)
    (c : Core) (b : Backend T) : SetInputOutcome T :=
  if m.m_pIntensity ≠ none then ⟨none, m, c, b⟩
  else
    match pInputData with
    | none => ⟨none, m, c, b⟩
    | some Input =>
      if some Input ≠ m.m_pIntensity then
        let Intensity := F.ImageCast Input
        let m := { m with m_pIntensity := some Intensity }
        let Gradient := F.GradientMagnitude Intensity
        let m := { m with m_pGradientMagnitude := some Gradient }
        let pResolution := Intensity.Extent
        let Extent : cudaExtent :=
          { width := pResolution.a1 + 1, height := pResolution.a3 + 1,
            depth := pResolution.a5 + 1 }
        let m := { m with m_VolumeInfo := deriveMetadata m.m_VolumeInfo Intensity }
        match BindIntensityBuffer Gradient.ScalarPointer Extent c b with
        | (some e, c1, b1) => ⟨some e, m, c1, b1⟩
        | (none, c1, b1) =>
          let r := BindGradientMagnitudeBuffer Gradient.ScalarPointer Extent c1 b1
          ⟨r.1, m, r.2.1, r.2.2⟩
      else ⟨none, m, c, b⟩

/-- Source of `vtkErVolumeInfo::Update`.  `pErVolumeProperty` is the result of the
`dynamic_cast` of `GetVolume()->GetProperty()` (`none` when there is no property of that
class), `Default` holds the values of the static `vtkErVolumeProperty::Default...()`
functions. -/
def Update (pErVolumeProperty : Option vtkErVolumeProperty) (Default : vtkErVolumeProperty)
    (m : vtkErVolumeInfo) : vtkErVolumeInfo :=
  let v := m.m_VolumeInfo
  let v :=
    match pErVolumeProperty with
    | some P =>
      let v := { v with m_DensityScale := P.DensityScale }
      let v := { v with
        m_StepSize := fmul P.StepSizeFactorPrimary (fdiv v.m_MaxAABB.x v.m_Extent.x) }
      let v := { v with m_StepSizeShadow := fmul v.m_StepSize P.StepSizeFactorSecondary }
      let v := { v with m_GradientDelta := fmul P.GradientDeltaFactor v.m_Spacing.x }
      let v := { v with m_InvGradientDelta := fdiv (some 1) v.m_GradientDelta }
      let v := { v with m_GradientFactor := P.GradientFactor }
      { v with m_ShadingType := P.ShadingType }
    | none =>
      let v := { v with m_DensityScale := Default.DensityScale }
      let v := { v with
        m_StepSize := fmul Default.StepSizeFactorPrimary (fdiv v.m_MaxAABB.x v.m_Extent.x) }
      let v := { v with m_StepSizeShadow := fmul Default.StepSizeFactorSecondary v.m_StepSize }
      let v := { v with m_GradientDelta := fmul Default.GradientDeltaFactor v.m_Spacing.x }
      let v := { v with m_InvGradientDelta := fdiv (some 1) v.m_GradientDelta }
      let v := { v with m_GradientFactor := Default.GradientFactor }
      { v with m_ShadingType := Default.ShadingType }
  let v := { v with m_GradientDeltaX := ⟨v.m_GradientDelta, some 0, some 0⟩ }
  let v := { v with m_GradientDeltaY := ⟨some 0, v.m_GradientDelta, some 0⟩ }
  let v := { v with m_GradientDeltaZ := ⟨some 0, some 0, v.m_GradientDelta⟩ }
  { m with m_VolumeInfo := v }

end vtkErVolumeInfo

/-- The host buffer that the texture `texref` samples: the source of the array bound to it. -/
def Backend.textureSource (b : Backend T) (texref : Nat) : Option HostPtr :=
  match b.textures.find? (fun e => e.1 == texref) with
  | none => none
  | some e =>
    match b.arrays.find? (fun a => some a.addr == e.2) with
    | none => none
    | some a => a.source

/-- The extent of the array bound to the texture `texref`. -/
def Backend.textureExtent (b : Backend T) (texref : Nat) : Option (Int × Int × Int) :=
  match b.textures.find? (fun e => e.1 == texref) with
  | none => none
  | some e => (b.arrays.find? (fun a => some a.addr == e.2)).map
      (fun a => (a.Width, a.Height, a.Depth))

/-- The addresses of the device arrays that are allocated. -/
def Backend.liveArrays (b : Backend T) : List Nat := b.arrays.map ArrayObj.addr

/-- Sample texture reference for evaluation. -/
def sampleTexture : textureReference :=
  { ref := 7, normalized := false, filterMode := .cudaFilterModePoint,
    addressMode0 := .cudaAddressModeWrap, addressMode1 := .cudaAddressModeWrap,
    addressMode2 := .cudaAddressModeWrap }

/-- Sample for evaluation: the first `BindTexture3D` of `sampleTexture`, with a null array
handle, to the host buffer `100` on an idle runtime. -/
def sampleBind3D : Thrown × CUDA.TextureArgs × Backend Nat :=
  CUDA.BindTexture3D sampleTexture (4, 4, 4) 100 none .cudaFilterModeLinear
    .cudaAddressModeClamp true Backend.idle

/-- Sample for evaluation: a second `BindTexture3D` with the handle the first one returned, to
the host buffer `200`. -/
def sampleRebind3D : Thrown × CUDA.TextureArgs × Backend Nat :=
  CUDA.BindTexture3D sampleBind3D.2.1.TextureReference (4, 4, 4) 200 sampleBind3D.2.1.pCudaArray
    .cudaFilterModeLinear .cudaAddressModeClamp true sampleBind3D.2.2

/-- Sample for evaluation: the first `BindTexture1D` of `sampleTexture` on an idle runtime. -/
def sampleBind1D : Thrown × CUDA.TextureArgs × Backend Nat :=
  CUDA.BindTexture1D sampleTexture 16 100 none .cudaFilterModeLinear .cudaAddressModeClamp true
    Backend.idle

/-- Sample for evaluation: a second `BindTexture1D` with the handle the first one returned. -/
def sampleRebind1D : Thrown × CUDA.TextureArgs × Backend Nat :=
  CUDA.BindTexture1D sampleBind1D.2.1.TextureReference 16 200 sampleBind1D.2.1.pCudaArray
    .cudaFilterModeLinear .cudaAddressModeClamp true sampleBind1D.2.2

/-- The rule of the specification for an inverse: `1/x` when `x` is non-zero and `0` when `x`
is zero. -/
def inverseSpec (x : ℚ) : ℚ := if x ≠ 0 then 1 / x else 0

/-- Sample input volume for evaluation: voxel buffer `100`, `64 x 32 x 16` voxels, bounds
`(0,0,0)` to `(10,20,30)`, spacing `(1,1,1)`. -/
def sampleImage : vtkImageData :=
  { ScalarPointer := 100, Extent := ⟨0, 63, 0, 31, 0, 15⟩, Bounds := ⟨0, 10, 0, 20, 0, 30⟩,
    Spacing := (1, 1, 1), ScalarRange := (0, 255) }

/-- Sample input volume for evaluation whose bounds are a single point. -/
def sampleFlatImage : vtkImageData :=
  { ScalarPointer := 100, Extent := ⟨0, 0, 0, 0, 0, 0⟩, Bounds := ⟨0, 0, 0, 0, 0, 0⟩,
    Spacing := (1, 1, 1), ScalarRange := (0, 255) }

/-- Sample filters for evaluation: the cast image lives in buffer `200`, the gradient-magnitude
image in buffer `300`. -/
def sampleFilters : Filters :=
  { castScalars := fun _ => 200, castRange := fun i => i.ScalarRange,
    gradientScalars := fun _ => 300, gradientRange := fun _ => (0, 100) }

/-- Sample metadata record for evaluation: every field zero. -/
def sampleVolumeInfo : VolumeInfo :=
  { m_Extent := ⟨some 0, some 0, some 0⟩, m_InvExtent := ⟨some 0, some 0, some 0⟩,
    m_IntensityMin := some 0, m_IntensityMax := some 0, m_IntensityRange := some 0,
    m_IntensityInvRange := some 0, m_Spacing := ⟨some 0, some 0, some 0⟩,
    m_InvSpacing := ⟨some 0, some 0, some 0⟩, m_MinAABB := ⟨some 0, some 0, some 0⟩,
    m_InvMinAABB := ⟨some 0, some 0, some 0⟩, m_MaxAABB := ⟨some 0, some 0, some 0⟩,
    m_InvMaxAABB := ⟨some 0, some 0, some 0⟩, m_GradientDelta := some 0,
    m_InvGradientDelta := some 0, m_GradientDeltaX := ⟨some 0, some 0, some 0⟩,
    m_GradientDeltaY := ⟨some 0, some 0, some 0⟩, m_GradientDeltaZ := ⟨some 0, some 0, some 0⟩,
    m_DensityScale := some 0, m_StepSize := some 0, m_StepSizeShadow := some 0,
    m_GradientFactor := some 0, m_ShadingType := 0 }

/-- Sample texture state for evaluation: the intensity texture is texture `1`, the
gradient-magnitude texture is texture `2`, nothing is bound. -/
def sampleCore : Core :=
  { gTexIntensity := { sampleTexture with ref := 1 }, gpIntensityArray := none,
    gTexGradientMagnitude := { sampleTexture with ref := 2 }, gpGradientMagnitudeArray := none }

/-- Sample for evaluation: the first `SetInputData` of a fresh manager, with `sampleImage`, on
an idle runtime. -/
def sampleFirstInput : SetInputOutcome Nat :=
  vtkErVolumeInfo.SetInputData sampleFilters (some sampleImage)
    (vtkErVolumeInfo.create sampleVolumeInfo) sampleCore Backend.idle

/-- Sample property source for evaluation: primary step-size factor `2`, secondary `3`. -/
def sampleProperty : vtkErVolumeProperty :=
  { DensityScale := some 50, StepSizeFactorPrimary := some 2, StepSizeFactorSecondary := some 3,
    GradientDeltaFactor := some 1, GradientFactor := some 4, ShadingType := 1 }

/-- Sample default values for evaluation. -/
def sampleDefault : vtkErVolumeProperty :=
  { DensityScale := some 100, StepSizeFactorPrimary := some 1, StepSizeFactorSecondary := some 1,
    GradientDeltaFactor := some 1, GradientFactor := some 1, ShadingType := 2 }

/-! ## Facts about the ordered map -/

namespace OrderedMap

variable {V : Type}

theorem find_assign_self (k : Int) (v : V) (m : List (Int × V)) :
    find k (assign k v m) = some v := by
  induction m with
  | nil => simp [assign, find]
  | cons e rest ih =>
    obtain ⟨k', v'⟩ := e
    simp only [assign]
    split_ifs with h1 h2
    · simp [find]
    · simp [find]
    · have : k' ≠ k := fun h => h2 h.symm
      simp [find, this, ih]

theorem find_assign_ne {k g : Int} (v : V) (m : List (Int × V)) (h : g ≠ k) :
    find g (assign k v m) = find g m := by
  induction m with
  | nil => simp [assign, find, h.symm]
  | cons e rest ih =>
    obtain ⟨k', v'⟩ := e
    simp only [assign]
    split_ifs with h1 h2
    · simp [find, h.symm]
    · subst h2
      simp [find, h.symm]
    · simp [find, ih]

theorem find_erase_self (k : Int) (m : List (Int × V)) : find k (erase k m) = none := by
  induction m with
  | nil => simp [erase, find]
  | cons e rest ih =>
    obtain ⟨k', v'⟩ := e
    by_cases h : k' = k
    · simpa [erase, h] using ih
    · simpa [erase, h, find] using ih

theorem find_erase_ne {k g : Int} (m : List (Int × V)) (h : g ≠ k) :
    find g (erase k m) = find g m := by
  induction m with
  | nil => simp [erase, find]
  | cons e rest ih =>
    obtain ⟨k', v'⟩ := e
    by_cases h1 : k' = k
    · have : k' ≠ g := fun h2 => h (h2.symm.trans h1)
      simpa [erase, h1, find, this, h.symm] using ih
    · by_cases h2 : k' = g
      · subst h2
        simp [erase, h, find]
      · simpa [erase, h1, find, h2] using ih

theorem find_eq_none_of_forall_ne {k : Int} {m : List (Int × V)} (h : ∀ e ∈ m, e.1 ≠ k) :
    find k m = none := by
  induction m with
  | nil => rfl
  | cons e rest ih =>
    obtain ⟨k', v'⟩ := e
    have h1 : k' ≠ k := h (k', v') (List.mem_cons_self _ _)
    simp only [find, h1, if_false]
    exact ih (fun e he => h e (List.mem_cons_of_mem _ he))

theorem mem_of_find_eq_some {k : Int} {v : V} {m : List (Int × V)} (h : find k m = some v) :
    (k, v) ∈ m := by
  induction m with
  | nil => simp [find] at h
  | cons e rest ih =>
    obtain ⟨k', v'⟩ := e
    by_cases h1 : k' = k
    · simp [find, h1] at h
      simp [h1, h]
    · simp [find, h1] at h
      exact List.mem_cons_of_mem _ (ih h)

theorem find_isSome_of_mem {e : Int × V} {m : List (Int × V)} (h : e ∈ m) :
    (find e.1 m).isSome = true := by
  induction m with
  | nil => simp at h
  | cons e' rest ih =>
    obtain ⟨k', v'⟩ := e'
    by_cases h1 : k' = e.1
    · simp [find, h1]
    · have : e ∈ rest := by
        rcases List.mem_cons.mp h with h2 | h2
        · exact absurd (by rw [h2]) h1
        · exact h2
      simpa [find, h1] using ih this

theorem mem_assign {k : Int} {v : V} {m : List (Int × V)} {e : Int × V}
    (h : e ∈ assign k v m) : e = (k, v) ∨ e ∈ m := by
  induction m with
  | nil => simpa [assign] using h
  | cons e' rest ih =>
    obtain ⟨k', v'⟩ := e'
    simp only [assign] at h
    split_ifs at h with h1 h2
    · rcases List.mem_cons.mp h with h3 | h3
      · exact Or.inl h3
      · exact Or.inr h3
    · rcases List.mem_cons.mp h with h3 | h3
      · exact Or.inl h3
      · exact Or.inr (List.mem_cons_of_mem _ h3)
    · rcases List.mem_cons.mp h with h3 | h3
      · exact Or.inr (h3 ▸ List.mem_cons_self _ _)
      · rcases ih h3 with h4 | h4
        · exact Or.inl h4
        · exact Or.inr (List.mem_cons_of_mem _ h4)

theorem ascending_assign (k : Int) (v : V) {m : List (Int × V)} (h : Ascending m) :
    Ascending (assign k v m) := by
  induction m with
  | nil => simp [assign, Ascending]
  | cons e rest ih =>
    obtain ⟨k', v'⟩ := e
    have hr : Ascending rest := (List.pairwise_cons.mp h).2
    have hk : ∀ e ∈ rest, k' < e.1 := (List.pairwise_cons.mp h).1
    simp only [assign]
    split_ifs with h1 h2
    · refine List.pairwise_cons.mpr ⟨?_, h⟩
      intro e he
      rcases List.mem_cons.mp he with h3 | h3
      · simpa [h3] using h1
      · exact lt_trans h1 (hk e h3)
    · subst h2
      exact List.pairwise_cons.mpr ⟨hk, hr⟩
    · refine List.pairwise_cons.mpr ⟨?_, ih hr⟩
      intro e he
      rcases mem_assign he with h3 | h3
      · have : k' < k := lt_of_le_of_ne (not_lt.mp h1) (fun h4 => h2 h4.symm)
        simpa [h3] using this
      · exact hk e h3

theorem ascending_erase (k : Int) {m : List (Int × V)} (h : Ascending m) :
    Ascending (erase k m) :=
  List.Pairwise.filter _ h

theorem ascending_ext {m1 m2 : List (Int × V)} (h1 : Ascending m1) (h2 : Ascending m2)
    (h : ∀ k, find k m1 = find k m2) : m1 = m2 := by
  induction m1 generalizing m2 with
  | nil =>
    cases m2 with
    | nil => rfl
    | cons e rest =>
      have := h e.1
      simp [find] at this
  | cons e1 r1 ih =>
    obtain ⟨k1, v1⟩ := e1
    have n1 : ∀ g, g ≤ k1 → find g r1 = none := fun g hg =>
      find_eq_none_of_forall_ne (fun e he => ne_of_gt (lt_of_le_of_lt hg
        ((List.pairwise_cons.mp h1).1 e he)))
    cases m2 with
    | nil =>
      have := h k1
      simp [find] at this
    | cons e2 r2 =>
      obtain ⟨k2, v2⟩ := e2
      have n2 : ∀ g, g ≤ k2 → find g r2 = none := fun g hg =>
        find_eq_none_of_forall_ne (fun e he => ne_of_gt (lt_of_le_of_lt hg
          ((List.pairwise_cons.mp h2).1 e he)))
      have hk : k1 = k2 := by
        rcases lt_trichotomy k1 k2 with hlt | heq | hgt
        · have := h k1
          simp [find, ne_of_gt hlt, n2 k1 (le_of_lt hlt)] at this
        · exact heq
        · have := h k2
          simp [find, ne_of_gt hgt, n1 k2 (le_of_lt hgt)] at this
      subst hk
      have hv : v1 = v2 := by
        have := h k1
        simpa [find] using this
      subst hv
      have hr : r1 = r2 := by
        apply ih (List.pairwise_cons.mp h1).2 (List.pairwise_cons.mp h2).2
        intro g
        by_cases hg : k1 = g
        · subst hg
          rw [n1 k1 le_rfl, n2 k1 le_rfl]
        · have := h g
          simpa [find, hg] using this
      rw [hr]

theorem forall_ne_of_find_eq_none {k : Int} {m : List (Int × V)} (h : find k m = none) :
    ∀ e ∈ m, e.1 ≠ k := by
  intro e he hk
  have := find_isSome_of_mem he
  rw [hk, h] at this
  simp at this

theorem erase_eq_self_of_absent {k : Int} {m : List (Int × V)} (h : find k m = none) :
    erase k m = m := by
  unfold erase
  rw [List.filter_eq_self]
  intro e he
  simpa using forall_ne_of_find_eq_none h e he

theorem erase_guard (k : Int) (m : List (Int × V)) :
    (if (find k m).isSome then erase k m else m) = erase k m := by
  split_ifs with h
  · rfl
  · rw [erase_eq_self_of_absent]
    simpa using h

theorem mem_erase {k : Int} {m : List (Int × V)} {e : Int × V} (h : e ∈ erase k m) : e ∈ m :=
  (List.mem_filter.mp h).1

theorem subscript_fst (d : V) (k : Int) (m : List (Int × V)) :
    (subscript d k m).1 = (find k m).getD d := by
  unfold subscript
  cases find k m <;> rfl

theorem subscript_snd_of_present {d : V} {k : Int} {m : List (Int × V)}
    (h : (find k m).isSome = true) : (subscript d k m).2 = m := by
  unfold subscript
  cases hf : find k m with
  | none => simp [hf] at h
  | some v => rfl

theorem find_subscript_ne (d : V) {k g : Int} (m : List (Int × V)) (h : g ≠ k) :
    find g (subscript d k m).2 = find g m := by
  unfold subscript
  cases find k m with
  | none => exact find_assign_ne d m h
  | some v => rfl

theorem ascending_subscript (d : V) (k : Int) {m : List (Int × V)} (h : Ascending m) :
    Ascending (subscript d k m).2 := by
  unfold subscript
  cases find k m with
  | none => exact ascending_assign k d h
  | some v => exact h

theorem mem_subscript {d : V} {k : Int} {m : List (Int × V)} {e : Int × V}
    (h : e ∈ (subscript d k m).2) : e.1 = k ∨ e ∈ m := by
  unfold subscript at h
  cases hf : find k m with
  | none =>
    rw [hf] at h
    rcases mem_assign h with h1 | h1
    · exact Or.inl (by rw [h1])
    · exact Or.inr h1
  | some v =>
    rw [hf] at h
    exact Or.inr h

theorem rank_eq_zero_of_forall_le {k : Int} {m : List (Int × V)} (h : ∀ e ∈ m, k ≤ e.1) :
    rank k m = 0 := by
  unfold rank
  rw [List.length_eq_zero, List.filter_eq_nil_iff]
  intro e he
  simpa using h e he

theorem find_positionsFrom (n : Nat) {m : List (Int × V)} (h : Ascending m) (g : Int) :
    find g (positionsFrom n m) = (find g m).map (fun _ => n + rank g m) := by
  induction m generalizing n with
  | nil => simp [positionsFrom, find]
  | cons e rest ih =>
    obtain ⟨k, v⟩ := e
    have hr : Ascending rest := (List.pairwise_cons.mp h).2
    have hk : ∀ e ∈ rest, k < e.1 := (List.pairwise_cons.mp h).1
    by_cases hg : k = g
    · subst hg
      have : rank k ((k, v) :: rest) = 0 :=
        rank_eq_zero_of_forall_le (fun e he => by
          rcases List.mem_cons.mp he with h3 | h3
          · simp [h3]
          · exact le_of_lt (hk e h3))
      simp [positionsFrom, find, this]
    · simp only [positionsFrom, find, hg, if_false]
      rw [ih (n + 1) hr]
      cases hf : find g rest with
      | none => rfl
      | some w =>
        have hlt : k < g := hk (g, w) (mem_of_find_eq_some hf)
        simp [rank, List.filter_cons, hlt]
        omega

theorem ascending_positionsFrom (n : Nat) {m : List (Int × V)} (h : Ascending m) :
    Ascending (positionsFrom n m) := by
  induction m generalizing n with
  | nil => simp [positionsFrom, Ascending]
  | cons e rest ih =>
    obtain ⟨k, v⟩ := e
    have hk : ∀ e ∈ rest, k < e.1 := (List.pairwise_cons.mp h).1
    refine List.pairwise_cons.mpr ⟨?_, ih (n + 1) (List.pairwise_cons.mp h).2⟩
    intro e he
    have h1 := find_isSome_of_mem he
    rw [find_positionsFrom (n + 1) (List.pairwise_cons.mp h).2] at h1
    cases hf : find e.1 rest with
    | none => simp [hf] at h1
    | some w => exact hk _ (mem_of_find_eq_some hf)

theorem map_snd_positionsFrom (n : Nat) (m : List (Int × V)) :
    (positionsFrom n m).map Prod.snd = List.range' n m.length := by
  induction m generalizing n with
  | nil => rfl
  | cons e rest ih =>
    obtain ⟨k, v⟩ := e
    simp [positionsFrom, ih, List.range']

theorem map_fst_positionsFrom (n : Nat) (m : List (Int × V)) :
    keys (positionsFrom n m) = keys m := by
  induction m generalizing n with
  | nil => rfl
  | cons e rest ih =>
    obtain ⟨k, v⟩ := e
    simpa [positionsFrom, keys] using ih (n + 1)

end OrderedMap

/-! ## Facts about the runtime when every call succeeds -/

theorem Backend.issue_eq {b : Backend T} (c : CudaCall) (h : b.allSucceed) :
    b.issue c = (cudaSuccess, b.advance c) := by
  unfold Backend.issue Backend.advance
  cases hs : b.script with
  | nil => rfl
  | cons e rest =>
    have : e = cudaSuccess := h e (by rw [hs]; exact List.mem_cons_self _ _)
    rw [this]
    rfl

theorem Backend.advance_allSucceed {b : Backend T} (c : CudaCall) (h : b.allSucceed) :
    (b.advance c).allSucceed := by
  intro e he
  exact h e (List.mem_of_mem_tail he)

theorem Backend.issue_snd (b : Backend T) (c : CudaCall) : (b.issue c).2 = b.advance c := rfl

/-! ## Facts about the wrapper class -/

namespace CUDA

theorem HandleCudaError_success (t : String) : HandleCudaError cudaSuccess t = none := by
  simp [HandleCudaError]

theorem ThreadSynchronize_ok {b : Backend T} (h : b.allSucceed) :
    ThreadSynchronize b = (none, b.advance .cudaThreadSynchronize) := by
  unfold ThreadSynchronize cudaThreadSynchronize
  rw [Backend.issue_eq _ h]
  rfl

theorem Free_ok {b : Backend T} (p : DevPtr) (h : b.allSucceed) :
    ∃ b', Free p b = (none, none, b') ∧ b'.allSucceed ∧ b'.symbols = b.symbols := by
  unfold Free
  by_cases hp : p = none
  · exact ⟨b, by simp [hp], h, rfl⟩
  · have h1 := Backend.advance_allSucceed .cudaThreadSynchronize h
    have h2 : (((b.advance .cudaThreadSynchronize).advance (.cudaFree p)).released
        p).allSucceed := Backend.advance_allSucceed (.cudaFree p) h1
    rw [if_neg hp, ThreadSynchronize_ok h]
    simp only [cudaFree, Backend.issue_eq _ h1, HandleCudaError_success, if_true]
    rw [ThreadSynchronize_ok h2]
    exact ⟨_, rfl, Backend.advance_allSucceed .cudaThreadSynchronize h2, rfl⟩

theorem Allocate_ok {b : Backend T} (p : DevPtr) (n : Int) (h : b.allSucceed) :
    ∃ a rest b', Allocate p n b = (none, some a, b') ∧ b'.allSucceed ∧
      b'.memory = (a, List.replicate n.toNat none) :: rest ∧ b'.symbols = b.symbols := by
  have h1 := Backend.advance_allSucceed .cudaThreadSynchronize h
  have h2 : (((b.advance .cudaThreadSynchronize).advance (.cudaMalloc n)).allocated
      n.toNat).allSucceed := Backend.advance_allSucceed (.cudaMalloc n) h1
  unfold Allocate
  rw [ThreadSynchronize_ok h]
  simp only [cudaMalloc, Backend.issue_eq _ h1, HandleCudaError_success, if_true]
  rw [ThreadSynchronize_ok h2]
  exact ⟨_, _, _, rfl, Backend.advance_allSucceed .cudaThreadSynchronize h2, rfl, rfl⟩

theorem MemCopyHostToDevice_ok {b : Backend T} (host : List T) (p : DevPtr) (n : Int)
    (h : b.allSucceed) :
    ∃ b', MemCopyHostToDevice host p n b = (none, b') ∧ b'.allSucceed ∧
      b'.memory = b.memory.map (fun e =>
        if some e.1 = p then (e.1, writeCells (host.map some) n.toNat e.2) else e) ∧
      b'.symbols = b.symbols := by
  have h1 := Backend.advance_allSucceed .cudaThreadSynchronize h
  have h2 : (((b.advance .cudaThreadSynchronize).advance
      (.cudaMemcpy p none n .cudaMemcpyHostToDevice)).written p (host.map some)
      n.toNat).allSucceed :=
    Backend.advance_allSucceed (.cudaMemcpy p none n .cudaMemcpyHostToDevice) h1
  unfold MemCopyHostToDevice
  rw [ThreadSynchronize_ok h]
  simp only [cudaMemcpyHostToDevice, Backend.issue_eq _ h1, HandleCudaError_success, if_true]
  rw [ThreadSynchronize_ok h2]
  exact ⟨_, rfl, Backend.advance_allSucceed .cudaThreadSynchronize h2, rfl, rfl⟩

theorem MemCopyHostToDeviceSymbol_ok {b : Backend T} (p : DevPtr) (sym : String) (n : Int)
    (h : b.allSucceed) :
    ∃ b', MemCopyHostToDeviceSymbol p sym n b = (none, b') ∧ b'.allSucceed ∧
      b'.memory = b.memory ∧
      b'.symbols = (sym, p) :: b.symbols.filter (fun e => e.1 != sym) := by
  have h1 := Backend.advance_allSucceed .cudaThreadSynchronize h
  have h2 : (((b.advance .cudaThreadSynchronize).advance (.cudaMemcpyToSymbol sym n)).published
      sym p).allSucceed := Backend.advance_allSucceed (.cudaMemcpyToSymbol sym n) h1
  unfold MemCopyHostToDeviceSymbol
  rw [ThreadSynchronize_ok h]
  simp only [cudaMemcpyPointerToSymbol, Backend.issue_eq _ h1, HandleCudaError_success, if_true]
  rw [ThreadSynchronize_ok h2]
  exact ⟨_, rfl, Backend.advance_allSucceed .cudaThreadSynchronize h2, rfl, rfl⟩

theorem HandleCudaError_level {c : cudaError_t} {t : String} {e : Exception}
    (h : HandleCudaError c t = some e) : e.Level = Enums.Error := by
  unfold HandleCudaError at h
  split_ifs at h
  simp at h
  rw [← h]

theorem ThreadSynchronize_level {b : Backend T} {e : Exception}
    (h : (ThreadSynchronize b).1 = some e) : e.Level = Enums.Error :=
  HandleCudaError_level h

theorem ThreadSynchronize_level_of_eq {b b1 : Backend T} {e : Exception}
    (h : ThreadSynchronize b = (some e, b1)) : e.Level = Enums.Error :=
  ThreadSynchronize_level (by rw [h])

theorem Free_level {p : DevPtr} {b : Backend T} {e : Exception}
    (h : (Free p b).1 = some e) : e.Level = Enums.Error := by
  unfold Free at h
  split_ifs at h
  dsimp only at h
  repeat' (split at h)
  all_goals
    first
    | exact ThreadSynchronize_level h
    | (simp only [Option.some.injEq] at h
       subst h
       first
       | exact ThreadSynchronize_level_of_eq ‹_›
       | exact HandleCudaError_level ‹_›)

theorem Allocate_level {p : DevPtr} {n : Int} {b : Backend T} {e : Exception}
    (h : (Allocate p n b).1 = some e) : e.Level = Enums.Error := by
  unfold Allocate at h
  dsimp only at h
  repeat' (split at h)
  all_goals
    first
    | exact ThreadSynchronize_level h
    | (simp only [Option.some.injEq] at h
       subst h
       first
       | exact ThreadSynchronize_level_of_eq ‹_›
       | exact HandleCudaError_level ‹_›)

theorem MemCopyHostToDevice_level {host : List T} {p : DevPtr} {n : Int} {b : Backend T}
    {e : Exception} (h : (MemCopyHostToDevice host p n b).1 = some e) :
    e.Level = Enums.Error := by
  unfold MemCopyHostToDevice at h
  dsimp only at h
  repeat' (split at h)
  all_goals
    first
    | exact ThreadSynchronize_level h
    | (simp only [Option.some.injEq] at h
       subst h
       first
       | exact ThreadSynchronize_level_of_eq ‹_›
       | exact HandleCudaError_level ‹_›)

theorem MemCopyHostToDeviceSymbol_level {p : DevPtr} {sym : String} {n : Int} {b : Backend T}
    {e : Exception} (h : (MemCopyHostToDeviceSymbol p sym n b).1 = some e) :
    e.Level = Enums.Error := by
  unfold MemCopyHostToDeviceSymbol at h
  dsimp only at h
  repeat' (split at h)
  all_goals
    first
    | exact ThreadSynchronize_level h
    | (simp only [Option.some.injEq] at h
       subst h
       first
       | exact ThreadSynchronize_level_of_eq ‹_›
       | exact HandleCudaError_level ‹_›)

theorem Free_level_of_eq {p p1 : DevPtr} {b b1 : Backend T} {e : Exception}
    (h : Free p b = (some e, p1, b1)) : e.Level = Enums.Error :=
  Free_level (by rw [h])

theorem Allocate_level_of_eq {p p1 : DevPtr} {n : Int} {b b1 : Backend T} {e : Exception}
    (h : Allocate p n b = (some e, p1, b1)) : e.Level = Enums.Error :=
  Allocate_level (by rw [h])

theorem MemCopyHostToDevice_level_of_eq {host : List T} {p : DevPtr} {n : Int}
    {b b1 : Backend T} {e : Exception}
    (h : MemCopyHostToDevice host p n b = (some e, b1)) : e.Level = Enums.Error :=
  MemCopyHostToDevice_level (by rw [h])

theorem Allocate_trace {b : Backend T} (p : DevPtr) (n : Int) (h : b.allSucceed) :
    (Allocate p n b).1 = none ∧ (Allocate p n b).2.2.allSucceed ∧
    (Allocate p n b).2.2.trace =
      b.trace ++ [.cudaThreadSynchronize, .cudaMalloc n, .cudaThreadSynchronize] := by
  have h1 := Backend.advance_allSucceed .cudaThreadSynchronize h
  have h2 : ((((b.advance .cudaThreadSynchronize).advance (.cudaMalloc n))).allocated n.toNat).allSucceed :=
    Backend.advance_allSucceed (.cudaMalloc n) h1
  unfold Allocate
  rw [ThreadSynchronize_ok h]
  simp only [cudaMalloc, Backend.issue_eq _ h1, HandleCudaError_success, if_true]
  rw [ThreadSynchronize_ok h2]
  exact ⟨rfl, Backend.advance_allSucceed .cudaThreadSynchronize h2, by simp [Backend.advance, Backend.allocated]⟩

theorem AllocatePiched_trace {b : Backend T} (p : DevPtr) (pitch w ht : Int) (h : b.allSucceed) :
    (AllocatePiched p pitch w ht b).1 = none ∧ (AllocatePiched p pitch w ht b).2.2.allSucceed ∧
    (AllocatePiched p pitch w ht b).2.2.trace =
      b.trace ++ [.cudaThreadSynchronize, .cudaMallocPitch w ht, .cudaThreadSynchronize] := by
  have h1 := Backend.advance_allSucceed .cudaThreadSynchronize h
  have h2 : ((((b.advance .cudaThreadSynchronize).advance (.cudaMallocPitch w ht))).allocated (w * ht).toNat).allSucceed :=
    Backend.advance_allSucceed (.cudaMallocPitch w ht) h1
  unfold AllocatePiched
  rw [ThreadSynchronize_ok h]
  simp only [cudaMallocPitch, Backend.issue_eq _ h1, HandleCudaError_success, if_true]
  rw [ThreadSynchronize_ok h2]
  exact ⟨rfl, Backend.advance_allSucceed .cudaThreadSynchronize h2, by simp [Backend.advance, Backend.allocated]⟩

theorem MemSet_trace {b : Backend T} (p : DevPtr) (v n : Int) (h : b.allSucceed) :
    (MemSet p v n b).1 = none ∧ (MemSet p v n b).2.allSucceed ∧
    (MemSet p v n b).2.trace =
      b.trace ++ [.cudaThreadSynchronize, .cudaMemset p v n, .cudaThreadSynchronize] := by
  have h1 := Backend.advance_allSucceed .cudaThreadSynchronize h
  have h2 : (((b.advance .cudaThreadSynchronize).advance (.cudaMemset p v n))).allSucceed :=
    Backend.advance_allSucceed (.cudaMemset p v n) h1
  unfold MemSet
  rw [ThreadSynchronize_ok h]
  simp only [cudaMemset, Backend.issue_eq _ h1, HandleCudaError_success, if_true]
  rw [ThreadSynchronize_ok h2]
  exact ⟨rfl, Backend.advance_allSucceed .cudaThreadSynchronize h2, by simp [Backend.advance, Backend.allocated]⟩

theorem HostToConstantDevice_trace {b : Backend T} (sym : String) (n : Int) (h : b.allSucceed) :
    (HostToConstantDevice sym n b).1 = none ∧ (HostToConstantDevice sym n b).2.allSucceed ∧
    (HostToConstantDevice sym n b).2.trace =
      b.trace ++ [.cudaThreadSynchronize, .cudaMemcpyToSymbol sym n, .cudaThreadSynchronize] := by
  have h1 := Backend.advance_allSucceed .cudaThreadSynchronize h
  have h2 : (((b.advance .cudaThreadSynchronize).advance (.cudaMemcpyToSymbol sym n))).allSucceed :=
    Backend.advance_allSucceed (.cudaMemcpyToSymbol sym n) h1
  unfold HostToConstantDevice
  rw [ThreadSynchronize_ok h]
  simp only [cudaMemcpyToSymbol, Backend.issue_eq _ h1, HandleCudaError_success, if_true]
  rw [ThreadSynchronize_ok h2]
  exact ⟨rfl, Backend.advance_allSucceed .cudaThreadSynchronize h2, by simp [Backend.advance, Backend.allocated]⟩

theorem MemCopyHostToDeviceSymbol_trace {b : Backend T} (p : DevPtr) (sym : String) (n : Int) (h : b.allSucceed) :
    (MemCopyHostToDeviceSymbol p sym n b).1 = none ∧ (MemCopyHostToDeviceSymbol p sym n b).2.allSucceed ∧
    (MemCopyHostToDeviceSymbol p sym n b).2.trace =
      b.trace ++ [.cudaThreadSynchronize, .cudaMemcpyToSymbol sym n, .cudaThreadSynchronize] := by
  have h1 := Backend.advance_allSucceed .cudaThreadSynchronize h
  have h2 : ((((b.advance .cudaThreadSynchronize).advance (.cudaMemcpyToSymbol sym n))).published sym p).allSucceed :=
    Backend.advance_allSucceed (.cudaMemcpyToSymbol sym n) h1
  unfold MemCopyHostToDeviceSymbol
  rw [ThreadSynchronize_ok h]
  simp only [cudaMemcpyPointerToSymbol, Backend.issue_eq _ h1, HandleCudaError_success, if_true]
  rw [ThreadSynchronize_ok h2]
  exact ⟨rfl, Backend.advance_allSucceed .cudaThreadSynchronize h2, by simp [Backend.advance, Backend.published]⟩

theorem MemCopyDeviceToDeviceSymbol_trace {b : Backend T} (sym : String) (n : Int) (h : b.allSucceed) :
    (MemCopyDeviceToDeviceSymbol sym n b).1 = none ∧ (MemCopyDeviceToDeviceSymbol sym n b).2.allSucceed ∧
    (MemCopyDeviceToDeviceSymbol sym n b).2.trace =
      b.trace ++ [.cudaThreadSynchronize, .cudaMemcpyToSymbol sym n, .cudaThreadSynchronize] := by
  have h1 := Backend.advance_allSucceed .cudaThreadSynchronize h
  have h2 : (((b.advance .cudaThreadSynchronize).advance (.cudaMemcpyToSymbol sym n))).allSucceed :=
    Backend.advance_allSucceed (.cudaMemcpyToSymbol sym n) h1
  unfold MemCopyDeviceToDeviceSymbol
  rw [ThreadSynchronize_ok h]
  simp only [cudaMemcpyToSymbol, Backend.issue_eq _ h1, HandleCudaError_success, if_true]
  rw [ThreadSynchronize_ok h2]
  exact ⟨rfl, Backend.advance_allSucceed .cudaThreadSynchronize h2, by simp [Backend.advance, Backend.allocated]⟩

theorem MemCopyHostToDevice_trace {b : Backend T} (host : List T) (p : DevPtr) (n : Int) (h : b.allSucceed) :
    (MemCopyHostToDevice host p n b).1 = none ∧ (MemCopyHostToDevice host p n b).2.allSucceed ∧
    (MemCopyHostToDevice host p n b).2.trace =
      b.trace ++ [.cudaThreadSynchronize, .cudaMemcpy p none n .cudaMemcpyHostToDevice, .cudaThreadSynchronize] := by
  have h1 := Backend.advance_allSucceed .cudaThreadSynchronize h
  have h2 : ((((b.advance .cudaThreadSynchronize).advance (.cudaMemcpy p none n .cudaMemcpyHostToDevice))).written p (host.map some) n.toNat).allSucceed :=
    Backend.advance_allSucceed (.cudaMemcpy p none n .cudaMemcpyHostToDevice) h1
  unfold MemCopyHostToDevice
  rw [ThreadSynchronize_ok h]
  simp only [cudaMemcpyHostToDevice, Backend.issue_eq _ h1, HandleCudaError_success, if_true]
  rw [ThreadSynchronize_ok h2]
  exact ⟨rfl, Backend.advance_allSucceed .cudaThreadSynchronize h2, by simp [Backend.advance, Backend.written]⟩

theorem MemCopyDeviceToHost_trace {b : Backend T} (p : DevPtr) (n : Int) (h : b.allSucceed) :
    (MemCopyDeviceToHost p n b).1 = none ∧ (MemCopyDeviceToHost p n b).2.2.allSucceed ∧
    (MemCopyDeviceToHost p n b).2.2.trace =
      b.trace ++ [.cudaThreadSynchronize, .cudaMemcpy none p n .cudaMemcpyDeviceToHost, .cudaThreadSynchronize] := by
  have h1 := Backend.advance_allSucceed .cudaThreadSynchronize h
  have h2 : (((b.advance .cudaThreadSynchronize).advance (.cudaMemcpy none p n .cudaMemcpyDeviceToHost))).allSucceed :=
    Backend.advance_allSucceed (.cudaMemcpy none p n .cudaMemcpyDeviceToHost) h1
  unfold MemCopyDeviceToHost
  rw [ThreadSynchronize_ok h]
  simp only [cudaMemcpyDeviceToHost, Backend.issue_eq _ h1, HandleCudaError_success, if_true]
  rw [ThreadSynchronize_ok h2]
  exact ⟨rfl, Backend.advance_allSucceed .cudaThreadSynchronize h2, by simp [Backend.advance, Backend.written]⟩

theorem MemCopyDeviceToDevice_trace {b : Backend T} (src dst : DevPtr) (n : Int) (h : b.allSucceed) :
    (MemCopyDeviceToDevice src dst n b).1 = none ∧ (MemCopyDeviceToDevice src dst n b).2.allSucceed ∧
    (MemCopyDeviceToDevice src dst n b).2.trace =
      b.trace ++ [.cudaThreadSynchronize, .cudaMemcpy dst src n .cudaMemcpyDeviceToDevice, .cudaThreadSynchronize] := by
  have h1 := Backend.advance_allSucceed .cudaThreadSynchronize h
  have h2 : ((((b.advance .cudaThreadSynchronize).advance (.cudaMemcpy dst src n .cudaMemcpyDeviceToDevice))).written dst (((b.advance .cudaThreadSynchronize).buffer src).getD []) n.toNat).allSucceed :=
    Backend.advance_allSucceed (.cudaMemcpy dst src n .cudaMemcpyDeviceToDevice) h1
  unfold MemCopyDeviceToDevice
  rw [ThreadSynchronize_ok h]
  simp only [cudaMemcpyDeviceToDevice, Backend.issue_eq _ h1, HandleCudaError_success, if_true]
  rw [ThreadSynchronize_ok h2]
  exact ⟨rfl, Backend.advance_allSucceed .cudaThreadSynchronize h2, by simp [Backend.advance, Backend.written]⟩

theorem FreeArray_trace {b : Backend T} (p : DevPtr) (h : b.allSucceed) :
    (FreeArray p b).1 = none ∧ (FreeArray p b).2.2.allSucceed ∧
    (FreeArray p b).2.2.trace =
      b.trace ++ [.cudaThreadSynchronize, .cudaFreeArray p, .cudaThreadSynchronize] := by
  have h1 := Backend.advance_allSucceed .cudaThreadSynchronize h
  have h2 : ((((b.advance .cudaThreadSynchronize).advance (.cudaFreeArray p))).arrayReleased p).allSucceed :=
    Backend.advance_allSucceed (.cudaFreeArray p) h1
  unfold FreeArray
  rw [ThreadSynchronize_ok h]
  simp only [cudaFreeArray, Backend.issue_eq _ h1, HandleCudaError_success, if_true]
  rw [ThreadSynchronize_ok h2]
  exact ⟨rfl, Backend.advance_allSucceed .cudaThreadSynchronize h2, by simp [Backend.advance, Backend.arrayReleased]⟩

theorem UnbindTexture_trace {b : Backend T} (tex : textureReference) (h : b.allSucceed) :
    (UnbindTexture tex b).1 = none ∧ (UnbindTexture tex b).2.allSucceed ∧
    (UnbindTexture tex b).2.trace =
      b.trace ++ [.cudaThreadSynchronize, .cudaUnbindTexture tex.ref, .cudaThreadSynchronize] := by
  have h1 := Backend.advance_allSucceed .cudaThreadSynchronize h
  have h2 : ((((b.advance .cudaThreadSynchronize).advance (.cudaUnbindTexture tex.ref))).textureUnbound tex.ref).allSucceed :=
    Backend.advance_allSucceed (.cudaUnbindTexture tex.ref) h1
  unfold UnbindTexture
  rw [ThreadSynchronize_ok h]
  simp only [cudaUnbindTexture, Backend.issue_eq _ h1, HandleCudaError_success, if_true]
  rw [ThreadSynchronize_ok h2]
  exact ⟨rfl, Backend.advance_allSucceed .cudaThreadSynchronize h2, by simp [Backend.advance, Backend.textureUnbound]⟩


theorem Free_trace {b : Backend T} (p : DevPtr) (hp : p ≠ none) (h : b.allSucceed) :
    (Free p b).1 = none ∧ (Free p b).2.1 = none ∧ (Free p b).2.2.allSucceed ∧
    (Free p b).2.2.trace = b.trace ++ [.cudaThreadSynchronize, .cudaFree p, .cudaThreadSynchronize] := by
  have h1 := Backend.advance_allSucceed .cudaThreadSynchronize h
  have h2 : (((b.advance .cudaThreadSynchronize).advance (.cudaFree p)).released p).allSucceed :=
    Backend.advance_allSucceed (.cudaFree p) h1
  have he : Free p b = (none, none, (((b.advance .cudaThreadSynchronize).advance (.cudaFree p)).released p).advance .cudaThreadSynchronize) := by
    unfold Free
    rw [if_neg hp, ThreadSynchronize_ok h]
    simp only [cudaFree, Backend.issue_eq _ h1, HandleCudaError_success, if_true]
    rw [ThreadSynchronize_ok h2]
  rw [he]
  exact ⟨rfl, rfl, Backend.advance_allSucceed .cudaThreadSynchronize h2, by simp [Backend.advance, Backend.released]⟩

theorem FreeArray_ok {b : Backend T} (p : DevPtr) (h : b.allSucceed) :
    ∃ b', FreeArray p b = (none, none, b') ∧ b'.allSucceed ∧
      b'.trace = b.trace ++ [.cudaThreadSynchronize, .cudaFreeArray p, .cudaThreadSynchronize] ∧ b'.next = b.next ∧
      b'.arrays = b.arrays.filter (fun a => some a.addr != p) := by
  have h1 := Backend.advance_allSucceed .cudaThreadSynchronize h
  have h2 : (((b.advance .cudaThreadSynchronize).advance (.cudaFreeArray p)).arrayReleased p).allSucceed :=
    Backend.advance_allSucceed (.cudaFreeArray p) h1
  refine ⟨(((b.advance .cudaThreadSynchronize).advance (.cudaFreeArray p)).arrayReleased p).advance .cudaThreadSynchronize, ?_,
    Backend.advance_allSucceed .cudaThreadSynchronize h2, by simp [Backend.advance, Backend.arrayReleased], rfl,
    rfl⟩
  unfold FreeArray
  rw [ThreadSynchronize_ok h]
  simp only [cudaFreeArray, Backend.issue_eq _ h1, HandleCudaError_success, if_true]
  rw [ThreadSynchronize_ok h2]

theorem cudaMallocArray_ok {b : Backend T} (p : DevPtr) (w ht : Int) (h : b.allSucceed) :
    cudaMallocArray p w ht b =
      (cudaSuccess, some b.next, (b.advance (.cudaMallocArray w ht)).arrayAllocated w ht 0) := by
  simp only [cudaMallocArray, Backend.issue_eq _ h, if_true]
  rfl

theorem cudaMalloc3DArray_ok {b : Backend T} (p : DevPtr) (w ht d : Int) (h : b.allSucceed) :
    cudaMalloc3DArray p w ht d b =
      (cudaSuccess, some b.next,
        (b.advance (.cudaMalloc3DArray w ht d)).arrayAllocated w ht d) := by
  simp only [cudaMalloc3DArray, Backend.issue_eq _ h, if_true]
  rfl

theorem cudaMemcpyToArray_ok {b : Backend T} (dst : DevPtr) (src : HostPtr) (n : Int)
    (h : b.allSucceed) :
    cudaMemcpyToArray dst src n b =
      (cudaSuccess, (b.advance (.cudaMemcpyToArray dst src n)).arrayFilled dst src) := by
  simp only [cudaMemcpyToArray, Backend.issue_eq _ h, if_true]

theorem cudaMemcpy3D_ok {b : Backend T} (dst : DevPtr) (src : HostPtr) (w ht d : Int)
    (h : b.allSucceed) :
    cudaMemcpy3D dst src w ht d b =
      (cudaSuccess, (b.advance (.cudaMemcpy3D dst src w ht d)).arrayFilled dst src) := by
  simp only [cudaMemcpy3D, Backend.issue_eq _ h, if_true]

theorem cudaBindTextureToArray_ok {b : Backend T} (t : Nat) (p : DevPtr) (h : b.allSucceed) :
    cudaBindTextureToArray t p b =
      (cudaSuccess, (b.advance (.cudaBindTextureToArray t p)).textureBound t p) := by
  simp only [cudaBindTextureToArray, Backend.issue_eq _ h, if_true]

theorem BindTexture1D_trace {b : Backend T} (tex : textureReference) (n : Int) (buf : HostPtr)
    (p : DevPtr) (fm : cudaTextureFilterMode) (am : cudaTextureAddressMode) (nrm : Bool)
    (h : b.allSucceed) :
    (BindTexture1D tex n buf p fm am nrm b).1 = none ∧
    (BindTexture1D tex n buf p fm am nrm b).2.1.pCudaArray = some b.next ∧
    (BindTexture1D tex n buf p fm am nrm b).2.2.allSucceed ∧
    (BindTexture1D tex n buf p fm am nrm b).2.2.trace =
      b.trace ++ [.cudaThreadSynchronize, .cudaThreadSynchronize, .cudaFreeArray p, .cudaThreadSynchronize, .cudaMallocArray n 1,
        .cudaMemcpyToArray (some b.next) buf n, .cudaBindTextureToArray tex.ref (some b.next),
        .cudaThreadSynchronize] := by
  have h1 := Backend.advance_allSucceed .cudaThreadSynchronize h
  obtain ⟨b2, hFA, h2, ht2, hn2, _⟩ := FreeArray_ok p h1
  have hn : b2.next = b.next := hn2
  have h3 : ((b2.advance (.cudaMallocArray n 1)).arrayAllocated n 1 0).allSucceed :=
    Backend.advance_allSucceed (.cudaMallocArray n 1) h2
  have h4 : ((((b2.advance (.cudaMallocArray n 1)).arrayAllocated n 1 0).advance
      (.cudaMemcpyToArray (some b2.next) buf n)).arrayFilled (some b2.next) buf).allSucceed :=
    Backend.advance_allSucceed (.cudaMemcpyToArray (some b2.next) buf n) h3
  have h5 : ((((((b2.advance (.cudaMallocArray n 1)).arrayAllocated n 1 0).advance
      (.cudaMemcpyToArray (some b2.next) buf n)).arrayFilled (some b2.next) buf).advance
      (.cudaBindTextureToArray tex.ref (some b2.next))).textureBound tex.ref
      (some b2.next)).allSucceed :=
    Backend.advance_allSucceed (.cudaBindTextureToArray tex.ref (some b2.next)) h4
  have he : BindTexture1D tex n buf p fm am nrm b =
      (none, ⟨{ tex with normalized := nrm, filterMode := fm, addressMode0 := am },
          some b2.next⟩,
        ((((((b2.advance (.cudaMallocArray n 1)).arrayAllocated n 1 0).advance
          (.cudaMemcpyToArray (some b2.next) buf n)).arrayFilled (some b2.next) buf).advance
          (.cudaBindTextureToArray tex.ref (some b2.next))).textureBound tex.ref
          (some b2.next)).advance .cudaThreadSynchronize) := by
    unfold BindTexture1D
    rw [ThreadSynchronize_ok h]
    dsimp only
    rw [hFA]
    dsimp only
    rw [cudaMallocArray_ok none n 1 h2]
    dsimp only
    rw [HandleCudaError_success]
    dsimp only
    rw [cudaMemcpyToArray_ok _ buf n h3]
    dsimp only
    rw [HandleCudaError_success]
    dsimp only
    rw [cudaBindTextureToArray_ok _ _ h4]
    dsimp only
    rw [HandleCudaError_success]
    dsimp only
    rw [ThreadSynchronize_ok h5]
  rw [he]
  refine ⟨rfl, by rw [← hn], Backend.advance_allSucceed .cudaThreadSynchronize h5, ?_⟩
  simp only [Backend.advance, Backend.arrayAllocated, Backend.arrayFilled, Backend.textureBound,
    ht2, hn]
  simp

theorem BindTexture3D_trace {b : Backend T} (tex : textureReference) (ext : Int × Int × Int)
    (buf : HostPtr) (p : DevPtr) (fm : cudaTextureFilterMode) (am : cudaTextureAddressMode)
    (nrm : Bool) (h : b.allSucceed) :
    (BindTexture3D tex ext buf p fm am nrm b).1 = none ∧
    (BindTexture3D tex ext buf p fm am nrm b).2.1.pCudaArray = some b.next ∧
    (BindTexture3D tex ext buf p fm am nrm b).2.2.allSucceed ∧
    (BindTexture3D tex ext buf p fm am nrm b).2.2.trace =
      b.trace ++ [.cudaThreadSynchronize, .cudaMalloc3DArray ext.1 ext.2.1 ext.2.2,
        .cudaMemcpy3D (some b.next) buf ext.1 ext.2.1 ext.2.2,
        .cudaBindTextureToArray tex.ref (some b.next), .cudaThreadSynchronize] := by
  have h1 := Backend.advance_allSucceed .cudaThreadSynchronize h
  have h2 : (((b.advance .cudaThreadSynchronize).advance (.cudaMalloc3DArray ext.1 ext.2.1 ext.2.2)).arrayAllocated
      ext.1 ext.2.1 ext.2.2).allSucceed :=
    Backend.advance_allSucceed (.cudaMalloc3DArray ext.1 ext.2.1 ext.2.2) h1
  have h3 : (((((b.advance .cudaThreadSynchronize).advance (.cudaMalloc3DArray ext.1 ext.2.1 ext.2.2)).arrayAllocated
      ext.1 ext.2.1 ext.2.2).advance
      (.cudaMemcpy3D (some (b.advance .cudaThreadSynchronize).next) buf ext.1 ext.2.1 ext.2.2)).arrayFilled
      (some (b.advance .cudaThreadSynchronize).next) buf).allSucceed :=
    Backend.advance_allSucceed (.cudaMemcpy3D (some (b.advance .cudaThreadSynchronize).next) buf ext.1 ext.2.1 ext.2.2) h2
  have h4 : (((((((b.advance .cudaThreadSynchronize).advance (.cudaMalloc3DArray ext.1 ext.2.1 ext.2.2)).arrayAllocated
      ext.1 ext.2.1 ext.2.2).advance
      (.cudaMemcpy3D (some (b.advance .cudaThreadSynchronize).next) buf ext.1 ext.2.1 ext.2.2)).arrayFilled
      (some (b.advance .cudaThreadSynchronize).next) buf).advance
      (.cudaBindTextureToArray tex.ref (some (b.advance .cudaThreadSynchronize).next))).textureBound tex.ref
      (some (b.advance .cudaThreadSynchronize).next)).allSucceed :=
    Backend.advance_allSucceed (.cudaBindTextureToArray tex.ref (some (b.advance .cudaThreadSynchronize).next)) h3
  have he : BindTexture3D tex ext buf p fm am nrm b =
      (none, ⟨{ tex with normalized := nrm, filterMode := fm, addressMode0 := am,
                          addressMode1 := am, addressMode2 := am }, some (b.advance .cudaThreadSynchronize).next⟩,
        (((((((b.advance .cudaThreadSynchronize).advance (.cudaMalloc3DArray ext.1 ext.2.1 ext.2.2)).arrayAllocated
          ext.1 ext.2.1 ext.2.2).advance
          (.cudaMemcpy3D (some (b.advance .cudaThreadSynchronize).next) buf ext.1 ext.2.1 ext.2.2)).arrayFilled
          (some (b.advance .cudaThreadSynchronize).next) buf).advance
          (.cudaBindTextureToArray tex.ref (some (b.advance .cudaThreadSynchronize).next))).textureBound tex.ref
          (some (b.advance .cudaThreadSynchronize).next)).advance .cudaThreadSynchronize) := by
    unfold BindTexture3D
    rw [ThreadSynchronize_ok h]
    dsimp only
    rw [cudaMalloc3DArray_ok p _ _ _ h1]
    dsimp only
    rw [HandleCudaError_success]
    dsimp only
    rw [cudaMemcpy3D_ok _ buf _ _ _ h2]
    dsimp only
    rw [HandleCudaError_success]
    dsimp only
    rw [cudaBindTextureToArray_ok _ _ h3]
    dsimp only
    rw [HandleCudaError_success]
    dsimp only
    rw [ThreadSynchronize_ok h4]
  rw [he]
  refine ⟨rfl, rfl, Backend.advance_allSucceed .cudaThreadSynchronize h4, ?_⟩
  simp [Backend.advance, Backend.arrayAllocated, Backend.arrayFilled, Backend.textureBound]

theorem GetSymbolAddress_trace {b : Backend T} (p : DevPtr) (sym : String)
    (h : b.allSucceed) :
    (GetSymbolAddress p sym b).1 = none ∧ (GetSymbolAddress p sym b).2.2.allSucceed ∧
    (GetSymbolAddress p sym b).2.2.trace = b.trace ++ [.cudaThreadSynchronize, .cudaGetSymbolAddress sym] := by
  have h1 := Backend.advance_allSucceed .cudaThreadSynchronize h
  have he : GetSymbolAddress p sym b =
      (none, ((b.advance .cudaThreadSynchronize).symbolAddresses.find? (fun e => e.1 == sym)).map Prod.snd,
        (b.advance .cudaThreadSynchronize).advance (.cudaGetSymbolAddress sym)) := by
    unfold GetSymbolAddress
    rw [ThreadSynchronize_ok h]
    simp only [cudaGetSymbolAddress, Backend.issue_eq _ h1, HandleCudaError_success, if_true]
    rfl
  rw [he]
  exact ⟨rfl, Backend.advance_allSucceed (.cudaGetSymbolAddress sym) h1,
    by simp [Backend.advance]⟩

theorem Free_null (b : Backend T) : Free none b = (none, none, b) := rfl

theorem Free_returns_null {p : DevPtr} {b : Backend T} (h : (Free p b).1 = none) :
    (Free p b).2.1 = none := by
  unfold Free at h ⊢
  split_ifs with hp
  · exact hp
  · rw [if_neg hp] at h
    dsimp only at h ⊢
    repeat' (split at h)
    all_goals first | (simp at h; done) | rfl

theorem FreeArray_returns_null {p : DevPtr} {b : Backend T} (h : (FreeArray p b).1 = none) :
    (FreeArray p b).2.1 = none := by
  unfold FreeArray at h ⊢
  dsimp only at h ⊢
  repeat' (split at h)
  all_goals first | (simp at h; done) | rfl

theorem sandwich_of_every_other_primitive {b : Backend T} (h : b.allSucceed) (p q : DevPtr)
    (n v pitch w ht : Int) (sym : String) (host : List T) (tex : textureReference)
    (ext : Int × Int × Int) (buf : HostPtr) (fm : cudaTextureFilterMode)
    (am : cudaTextureAddressMode) (nrm : Bool) :
    Sandwiched b.trace (Allocate p n b).2.2.trace ∧
    Sandwiched b.trace (AllocatePiched p pitch w ht b).2.2.trace ∧
    Sandwiched b.trace (MemSet p v n b).2.trace ∧
    Sandwiched b.trace (HostToConstantDevice sym n b).2.trace ∧
    Sandwiched b.trace (MemCopyHostToDeviceSymbol p sym n b).2.trace ∧
    Sandwiched b.trace (MemCopyDeviceToDeviceSymbol sym n b).2.trace ∧
    Sandwiched b.trace (MemCopyHostToDevice host p n b).2.trace ∧
    Sandwiched b.trace (MemCopyDeviceToHost p n b).2.2.trace ∧
    Sandwiched b.trace (MemCopyDeviceToDevice p q n b).2.trace ∧
    Sandwiched b.trace (FreeArray p b).2.2.trace ∧
    Sandwiched b.trace (UnbindTexture tex b).2.trace ∧
    Sandwiched b.trace (BindTexture1D tex n buf p fm am nrm b).2.2.trace ∧
    Sandwiched b.trace (BindTexture3D tex ext buf p fm am nrm b).2.2.trace ∧
    (p ≠ none → Sandwiched b.trace (Free p b).2.2.trace) := by
  refine ⟨?_, ?_, ?_, ?_, ?_, ?_, ?_, ?_, ?_, ?_, ?_, ?_, ?_, ?_⟩
  · exact ⟨[.cudaMalloc n], by simp, by rw [(Allocate_trace p n h).2.2]; simp⟩
  · exact ⟨[.cudaMallocPitch w ht], by simp, by rw [(AllocatePiched_trace p pitch w ht h).2.2]; simp⟩
  · exact ⟨[.cudaMemset p v n], by simp, by rw [(MemSet_trace p v n h).2.2]; simp⟩
  · exact ⟨[.cudaMemcpyToSymbol sym n], by simp, by rw [(HostToConstantDevice_trace sym n h).2.2]; simp⟩
  · exact ⟨[.cudaMemcpyToSymbol sym n], by simp, by rw [(MemCopyHostToDeviceSymbol_trace p sym n h).2.2]; simp⟩
  · exact ⟨[.cudaMemcpyToSymbol sym n], by simp, by rw [(MemCopyDeviceToDeviceSymbol_trace sym n h).2.2]; simp⟩
  · exact ⟨[.cudaMemcpy p none n .cudaMemcpyHostToDevice], by simp, by rw [(MemCopyHostToDevice_trace host p n h).2.2]; simp⟩
  · exact ⟨[.cudaMemcpy none p n .cudaMemcpyDeviceToHost], by simp, by rw [(MemCopyDeviceToHost_trace p n h).2.2]; simp⟩
  · exact ⟨[.cudaMemcpy q p n .cudaMemcpyDeviceToDevice], by simp, by rw [(MemCopyDeviceToDevice_trace p q n h).2.2]; simp⟩
  · exact ⟨[.cudaFreeArray p], by simp, by rw [(FreeArray_trace p h).2.2]; simp⟩
  · exact ⟨[.cudaUnbindTexture tex.ref], by simp, by rw [(UnbindTexture_trace tex h).2.2]; simp⟩
  · exact ⟨[.cudaThreadSynchronize, .cudaFreeArray p, .cudaThreadSynchronize, .cudaMallocArray n 1,
      .cudaMemcpyToArray (some b.next) buf n, .cudaBindTextureToArray tex.ref (some b.next)], by simp, by rw [(BindTexture1D_trace tex n buf p fm am nrm h).2.2.2]; simp⟩
  · exact ⟨[.cudaMalloc3DArray ext.1 ext.2.1 ext.2.2,
      .cudaMemcpy3D (some b.next) buf ext.1 ext.2.1 ext.2.2,
      .cudaBindTextureToArray tex.ref (some b.next)], by simp, by rw [(BindTexture3D_trace tex ext buf p fm am nrm h).2.2.2]; simp⟩
  · intro hp
    exact ⟨[.cudaFree p], by simp, by rw [(Free_trace p hp h).2.2.2]; simp⟩

theorem GetSymbolAddress_not_sandwiched {b : Backend T} (p : DevPtr) (sym : String)
    (h : b.allSucceed) : ¬ Sandwiched b.trace (GetSymbolAddress p sym b).2.2.trace := by
  rintro ⟨own, _, heq⟩
  rw [(GetSymbolAddress_trace p sym h).2.2] at heq
  have h1 := List.append_cancel_left heq
  have h2 : [CudaCall.cudaGetSymbolAddress sym] = own ++ [CudaCall.cudaThreadSynchronize] := by
    simpa using h1
  have h3 := congrArg List.getLast? h2
  simp at h3

/-- C9, the failing input: `FreeArray` has no null guard.  Called on a null handle it issues
three runtime calls (synchronize, `cudaFreeArray(NULL)`, synchronize), and it throws when the
runtime reports an error; `Free` on the same null handle issues no call and cannot throw. -/
theorem C9_FreeArray_null_is_not_a_no_op :
    (FreeArray none (Backend.idle : Backend Nat)).2.2.trace =
      [.cudaThreadSynchronize, .cudaFreeArray none, .cudaThreadSynchronize] ∧
    ((FreeArray none (Backend.failing : Backend Nat)).1).map Exception.Level =
      some Enums.Error ∧
    Free none (Backend.idle : Backend Nat) = (none, none, Backend.idle) ∧
    Free none (Backend.failing : Backend Nat) = (none, none, Backend.failing) := by
  refine ⟨by decide, by decide, rfl, rfl⟩

/-- C10, the failing input: `GetSymbolAddress` synchronizes before `cudaGetSymbolAddress` but
not after it.  On a runtime where every call succeeds it returns normally having issued
exactly two calls, the last of which is not a synchronize. -/
theorem C10_GetSymbolAddress_has_no_trailing_synchronize :
    (GetSymbolAddress none "gpLights" (Backend.idle : Backend Nat)).1 = none ∧
    (GetSymbolAddress none "gpLights" (Backend.idle : Backend Nat)).2.2.trace =
      [.cudaThreadSynchronize, .cudaGetSymbolAddress "gpLights"] ∧
    ¬ Sandwiched (Backend.idle : Backend Nat).trace
      (GetSymbolAddress none "gpLights" (Backend.idle : Backend Nat)).2.2.trace := by
  refine ⟨by decide, by decide, GetSymbolAddress_not_sandwiched none "gpLights" (by decide)⟩

end CUDA

/-! ## Facts about `Synchronize` -/

namespace CudaList

open OrderedMap

variable {H : Type}

theorem fill_size (m : List (Int × T)) (host : List T) (hm : List (Int × Nat)) (n : Nat) :
    (fill m (host, hm, n)).2.2 = n + m.length := by
  induction m generalizing host hm n with
  | nil => simp [fill]
  | cons e rest ih =>
    obtain ⟨k, v⟩ := e
    simp only [fill, ih, List.length_cons]
    omega

theorem fill_ascending (m : List (Int × T)) (host : List T) {hm : List (Int × Nat)} (n : Nat)
    (h : Ascending hm) : Ascending (fill m (host, hm, n)).2.1 := by
  induction m generalizing host hm n with
  | nil => simpa [fill] using h
  | cons e rest ih =>
    obtain ⟨k, v⟩ := e
    simp only [fill]
    exact ih _ _ (ascending_assign k n h)

theorem fill_find_of_absent (m : List (Int × T)) (host : List T) (hm : List (Int × Nat))
    (n : Nat) {g : Int} (h : find g m = none) :
    find g (fill m (host, hm, n)).2.1 = find g hm := by
  induction m generalizing host hm n with
  | nil => simp [fill]
  | cons e rest ih =>
    obtain ⟨k, v⟩ := e
    by_cases hk : k = g
    · simp [find, hk] at h
    · simp only [find, hk, if_false] at h
      simp only [fill]
      rw [ih _ _ _ h, find_assign_ne _ _ (fun h1 => hk h1.symm)]

theorem fill_find_of_present {m : List (Int × T)} (host : List T) (hm : List (Int × Nat))
    (n : Nat) {g : Int} {v : T} (ha : Ascending m) (h : find g m = some v) :
    find g (fill m (host, hm, n)).2.1 = some (n + rank g m) := by
  induction m generalizing host hm n with
  | nil => simp [find] at h
  | cons e rest ih =>
    obtain ⟨k, w⟩ := e
    have hr : Ascending rest := (List.pairwise_cons.mp ha).2
    have hk : ∀ e ∈ rest, k < e.1 := (List.pairwise_cons.mp ha).1
    simp only [fill]
    by_cases hg : k = g
    · subst hg
      have h0 : rank k ((k, w) :: rest) = 0 :=
        rank_eq_zero_of_forall_le (fun e he => by
          rcases List.mem_cons.mp he with h3 | h3
          · simp [h3]
          · exact le_of_lt (hk e h3))
      have hn : find k rest = none :=
        find_eq_none_of_forall_ne (fun e he => ne_of_gt (hk e he))
      rw [fill_find_of_absent _ _ _ _ hn, find_assign_self, h0]
      rfl
    · simp only [find, hg, if_false] at h
      rw [ih _ _ _ hr h]
      have hlt : k < g := hk (g, v) (mem_of_find_eq_some h)
      simp [rank, List.filter_cons, hlt]
      omega

theorem fill_host (m : List (Int × T)) (host : List T) (hm : List (Int × Nat)) (n : Nat)
    (h : n + m.length ≤ host.length) :
    (fill m (host, hm, n)).1 = host.take n ++ m.map Prod.snd ++ host.drop (n + m.length) := by
  induction m generalizing host hm n with
  | nil => simp [fill]
  | cons e rest ih =>
    obtain ⟨k, v⟩ := e
    simp only [fill, List.length_cons] at h ⊢
    rw [ih _ _ _ (by simp; omega)]
    have hlt : n < host.length := by omega
    have h1 : (host.set n v).take (n + 1) = host.take n ++ [v] := by
      rw [List.set_eq_take_append_cons_drop, if_pos hlt, List.take_append_eq_append_take]
      simp [List.length_take, Nat.min_eq_left (le_of_lt hlt), List.take_take]
    have h2 : (host.set n v).drop (n + 1 + rest.length) = host.drop (n + (rest.length + 1)) := by
      rw [List.drop_set_of_lt v host (by omega)]
      congr 1
      omega
    rw [h1, h2]
    simp

theorem Synchronize_ResourceMap [TableEntry T H] (s : CudaList T) (b : Backend T) :
    (Synchronize s b).list.ResourceMap = s.ResourceMap := by
  unfold Synchronize
  split_ifs
  · rfl
  · dsimp only
    repeat' (first | rfl | split)

theorem Synchronize_ResourceCounter [TableEntry T H] (s : CudaList T) (b : Backend T) :
    (Synchronize s b).list.ResourceCounter = s.ResourceCounter := by
  unfold Synchronize
  split_ifs
  · rfl
  · dsimp only
    repeat' (first | rfl | split)

theorem Synchronize_DeviceSymbol [TableEntry T H] (s : CudaList T) (b : Backend T) :
    (Synchronize s b).list.DeviceSymbol = s.DeviceSymbol := by
  unfold Synchronize
  split_ifs
  · rfl
  · dsimp only
    repeat' (first | rfl | split)

theorem Synchronize_HashMap [TableEntry T H] (s : CudaList T) (b : Backend T) :
    (Synchronize s b).list.HashMap =
      if s.ResourceMap.length ≤ 0 then s.HashMap
      else (fill s.ResourceMap
        (List.replicate s.ResourceMap.length (TableEntry.construct : T), s.HashMap, 0)).2.1 := by
  unfold Synchronize
  split_ifs
  · rfl
  · dsimp only
    repeat' (first | rfl | split)

theorem Synchronize_level [TableEntry T H] {s : CudaList T} {b : Backend T} {e : Exception}
    (h : (Synchronize s b).thrown = some e) : e.Level = Enums.Error := by
  unfold Synchronize at h
  split_ifs at h
  dsimp only at h
  repeat' (split at h)
  all_goals
    first
    | exact CUDA.MemCopyHostToDeviceSymbol_level h
    | (simp only [Option.some.injEq] at h
       subst h
       first
       | exact CUDA.Free_level_of_eq ‹CUDA.Free _ _ = (some _, _, _)›
       | exact CUDA.Allocate_level_of_eq ‹CUDA.Allocate _ _ _ = (some _, _, _)›
       | exact CUDA.MemCopyHostToDevice_level_of_eq
           ‹CUDA.MemCopyHostToDevice _ _ _ _ = (some _, _)›)

theorem inv_create (pDeviceSymbol : String) : Inv (create pDeviceSymbol : CudaList T) :=
  ⟨by simp [create, Ascending], by simp [create], by simp [create], by simp [create, positionsFrom]⟩

theorem inv_Synchronize [TableEntry T H] {s : CudaList T} (b : Backend T)
    (hasc : Ascending s.ResourceMap) (hnn : 0 ≤ s.ResourceCounter)
    (hb : ∀ e ∈ s.ResourceMap, 0 ≤ e.1 ∧ e.1 < s.ResourceCounter)
    (hh : Ascending s.HashMap) (hc : ∀ g, find g s.ResourceMap = none → find g s.HashMap = none) :
    Inv (Synchronize s b).list := by
  refine ⟨?_, ?_, ?_, ?_⟩
  · rw [Synchronize_ResourceMap]; exact hasc
  · rw [Synchronize_ResourceCounter]; exact hnn
  · rw [Synchronize_ResourceMap, Synchronize_ResourceCounter]; exact hb
  · rw [Synchronize_ResourceMap, Synchronize_HashMap]
    split_ifs with h0
    · have hnil : s.ResourceMap = [] := List.length_eq_zero.mp (Nat.le_zero.mp h0)
      rw [hnil]
      apply ascending_ext hh (by simp [positionsFrom, Ascending])
      intro k
      rw [hc k (by rw [hnil]; rfl)]
      rfl
    · apply ascending_ext (fill_ascending _ _ _ hh) (ascending_positionsFrom 0 hasc)
      intro g
      rw [find_positionsFrom 0 hasc]
      cases hf : find g s.ResourceMap with
      | none => rw [fill_find_of_absent _ _ _ _ hf, hc g hf]; rfl
      | some v => rw [fill_find_of_present _ _ _ hasc hf]; rfl

theorem Unbind_eq [TableEntry T H] (ID : Int) (s : CudaList T) (b : Backend T) :
    Unbind ID s b =
      if s.Exists ID = false then ⟨none, s, b⟩
      else Synchronize { s with ResourceMap := erase ID s.ResourceMap,
                                HashMap := erase ID s.HashMap } b := by
  unfold Unbind
  by_cases h : s.Exists ID = false
  · simp [h]
  · have hs : (find ID s.ResourceMap).isSome = true := by
      unfold Exists at h
      split_ifs at h with h1
      · simp at h
      · simpa [Option.isSome_iff_ne_none] using h
    simp only [h, hs, if_true, Bool.not_eq_true, Bool.not_true, Bool.false_eq_true, if_false]
    have := erase_guard ID s.HashMap
    by_cases hh : (find ID s.HashMap).isSome = true
    · simp [hh]
    · have he : erase ID s.HashMap = s.HashMap := by
        rw [erase_eq_self_of_absent]; simpa using hh
      simp [hh, he]

theorem inv_Unbind [TableEntry T H] (ID : Int) {s : CudaList T} (b : Backend T) (h : Inv s) :
    Inv (Unbind ID s b).list := by
  rw [Unbind_eq]
  split_ifs with he
  · exact h
  · apply inv_Synchronize
    · exact ascending_erase ID h.asc
    · exact h.nonneg
    · intro e hm
      exact h.bound e (mem_erase hm)
    · show Ascending (erase ID s.HashMap)
      rw [h.hash]
      exact ascending_erase ID (ascending_positionsFrom 0 h.asc)
    · intro g hg
      show find g (erase ID s.HashMap) = none
      by_cases hgi : g = ID
      · rw [hgi, find_erase_self]
      · have : find g s.ResourceMap = none := by
          rw [← find_erase_ne s.ResourceMap hgi]; exact hg
        rw [find_erase_ne _ hgi, h.hash, find_positionsFrom 0 h.asc, this]
        rfl

theorem Bind_eq [TableEntry T H] (MaxSize : Nat) (R : H) (ID : Int) (s : CudaList T)
    (b : Backend T) :
    Bind MaxSize R ID s b =
      if s.ResourceMap.length ≥ MaxSize then
        ⟨some ⟨Enums.Warning, "Maximum number of ResourceMap reached"⟩, ID, s, b⟩
      else if s.Exists ID = false then
        ⟨(Synchronize (inserted R s) b).thrown, s.ResourceCounter,
          (Synchronize (inserted R s) b).list, (Synchronize (inserted R s) b).backend⟩
      else
        ⟨(Synchronize (overwritten R ID s) b).thrown, ID,
          (Synchronize (overwritten R ID s) b).list,
          (Synchronize (overwritten R ID s) b).backend⟩ := by
  unfold Bind
  by_cases h1 : s.ResourceMap.length ≥ MaxSize
  · simp [h1]
  · by_cases h2 : s.Exists ID = false
    · simp [h1, h2, stored, inserted]
    · simp [h1, h2, stored, overwritten]

theorem Bind_cases [TableEntry T H] (MaxSize : Nat) (R : H) (ID : Int) (s : CudaList T)
    (b : Backend T) :
    (MaxSize ≤ s.ResourceMap.length ∧ Bind MaxSize R ID s b = ⟨some capacityExceeded, ID, s, b⟩) ∨
    (s.ResourceMap.length < MaxSize ∧ s.Exists ID = false ∧
      Bind MaxSize R ID s b =
        ⟨(Synchronize (inserted R s) b).thrown, s.ResourceCounter,
          (Synchronize (inserted R s) b).list, (Synchronize (inserted R s) b).backend⟩) ∨
    (s.ResourceMap.length < MaxSize ∧ s.Exists ID = true ∧
      Bind MaxSize R ID s b =
        ⟨(Synchronize (overwritten R ID s) b).thrown, ID,
          (Synchronize (overwritten R ID s) b).list,
          (Synchronize (overwritten R ID s) b).backend⟩) := by
  rw [Bind_eq]
  by_cases h1 : s.ResourceMap.length ≥ MaxSize
  · exact Or.inl ⟨h1, by simp [h1, capacityExceeded]⟩
  · by_cases h2 : s.Exists ID = false
    · exact Or.inr (Or.inl ⟨not_le.mp h1, h2, by simp [h1, h2]⟩)
    · exact Or.inr (Or.inr ⟨not_le.mp h1, by simpa using h2, by simp [h1, h2]⟩)

theorem find_isSome_of_Exists {s : CudaList T} {ID : Int} (h : s.Exists ID = true) :
    (find ID s.ResourceMap).isSome = true := by
  unfold Exists at h
  split_ifs at h with h1
  exact h

theorem nonneg_of_Exists {s : CudaList T} {ID : Int} (h : s.Exists ID = true) : 0 ≤ ID := by
  unfold Exists at h
  split_ifs at h with h1
  exact not_lt.mp h1

theorem ascending_stored [TableEntry T H] (k : Int) (R : H) {m : List (Int × T)}
    (h : Ascending m) : Ascending (stored k R m) :=
  ascending_assign _ _ (ascending_subscript _ _ h)

theorem find_stored_self [TableEntry T H] (k : Int) (R : H) (m : List (Int × T)) :
    find k (stored k R m) =
      some (TableEntry.FromHost ((find k m).getD (TableEntry.construct : T)) R) := by
  unfold stored
  rw [find_assign_self, subscript_fst]

theorem find_stored_ne [TableEntry T H] {k g : Int} (R : H) (m : List (Int × T)) (h : g ≠ k) :
    find g (stored k R m) = find g m := by
  unfold stored
  rw [find_assign_ne _ _ h, find_subscript_ne _ _ h]

theorem mem_stored [TableEntry T H] {k : Int} {R : H} {m : List (Int × T)} {e : Int × T}
    (h : e ∈ stored k R m) : e.1 = k ∨ e ∈ m := by
  unfold stored at h
  rcases mem_assign h with h1 | h1
  · exact Or.inl (by rw [h1])
  · exact mem_subscript h1

theorem inv_Bind [TableEntry T H] (MaxSize : Nat) (R : H) (ID : Int) {s : CudaList T}
    (b : Backend T) (h : Inv s) : Inv (Bind MaxSize R ID s b).list := by
  rw [Bind_eq]
  have hcompat : ∀ k g, find g (stored k R s.ResourceMap) = none → find g s.HashMap = none := by
    intro k g hg
    have hgk : g ≠ k := by
      intro hgk
      rw [hgk, find_stored_self] at hg
      simp at hg
    rw [find_stored_ne _ _ hgk] at hg
    rw [h.hash, find_positionsFrom 0 h.asc, hg]
    rfl
  have hhash : Ascending s.HashMap := by
    rw [h.hash]; exact ascending_positionsFrom 0 h.asc
  split_ifs with h1 h2
  · exact h
  · apply inv_Synchronize
    · exact ascending_stored _ _ h.asc
    · show 0 ≤ s.ResourceCounter + 1
      have := h.nonneg
      omega
    · intro e he
      show 0 ≤ e.1 ∧ e.1 < s.ResourceCounter + 1
      rcases mem_stored he with h3 | h3
      · have := h.nonneg
        omega
      · have := h.bound e h3
        omega
    · exact hhash
    · exact hcompat _
  · apply inv_Synchronize
    · exact ascending_stored _ _ h.asc
    · exact h.nonneg
    · intro e he
      show 0 ≤ e.1 ∧ e.1 < s.ResourceCounter
      rcases mem_stored he with h3 | h3
      · have hex : (find ID s.ResourceMap).isSome = true :=
          find_isSome_of_Exists (by simpa using h2)
        obtain ⟨v, hv⟩ := Option.isSome_iff_exists.mp hex
        have := h.bound _ (mem_of_find_eq_some hv)
        rw [h3]
        exact this
      · exact h.bound e h3
    · exact hhash
    · exact hcompat _

theorem inv_exec [TableEntry T H] (MaxSize : Nat) (calls : List (Call H))
    (st : CudaList T × Backend T) (h : Inv st.1) : Inv (exec MaxSize calls st).1 := by
  induction calls generalizing st with
  | nil => exact h
  | cons c rest ih =>
    cases c with
    | Bind R ID => exact ih _ (inv_Bind MaxSize R ID st.2 h)
    | Unbind ID => exact ih _ (inv_Unbind ID st.2 h)

theorem inv_of_reachable [TableEntry T H] {MaxSize : Nat} {st : CudaList T × Backend T}
    (h : Reachable MaxSize st) : Inv st.1 := by
  obtain ⟨sym, b0, calls, rfl⟩ := h
  exact inv_exec MaxSize calls _ (inv_create sym)

theorem index_of_present [TableEntry T H] {s : CudaList T} {i : Int} {v : T}
    (h : find i s.ResourceMap = some v) : index s i = (.ok v, s) := by
  unfold index
  have h1 : (find i s.ResourceMap).isSome = true := by rw [h]; rfl
  simp [h, subscript_fst, subscript_snd_of_present h1]

theorem index_of_absent [TableEntry T H] {s : CudaList T} {i : Int}
    (h : find i s.ResourceMap = none) : index s i = (.error notFound, s) := by
  unfold index
  simp [h, notFound]

theorem Exists_eq_true_iff {s : CudaList T} {ID : Int} :
    s.Exists ID = true ↔ 0 ≤ ID ∧ (find ID s.ResourceMap).isSome = true := by
  unfold Exists
  split_ifs with h
  · simp; omega
  · simp [Option.isSome_iff_ne_none]; omega

theorem Exists_Synchronize [TableEntry T H] (s : CudaList T) (b : Backend T) (g : Int) :
    (Synchronize s b).list.Exists g = s.Exists g := by
  unfold Exists
  rw [Synchronize_ResourceMap]

/-- C1: in every table state reached from a freshly constructed table by Bind/Unbind calls,
and for every resource, a Bind that does not throw leaves in ID a handle for which Exists is
true and for which operator[] returns the entry that FromHost made of the resource (FromHost
is a member call on the slot of that handle, which holds the entry stored there before the
call or a default-constructed entry). -/
theorem C1_bind_then_exists_and_index [TableEntry T H] (MaxSize : Nat)
    (st : CudaList T × Backend T) (R : H) (ID : Int) (hst : Reachable MaxSize st)
    (hok : (Bind MaxSize R ID st.1 st.2).thrown = none) :
    (Bind MaxSize R ID st.1 st.2).list.Exists (Bind MaxSize R ID st.1 st.2).ID = true ∧
    (index (Bind MaxSize R ID st.1 st.2).list (Bind MaxSize R ID st.1 st.2).ID).1 =
      .ok (TableEntry.FromHost
        ((find (Bind MaxSize R ID st.1 st.2).ID st.1.ResourceMap).getD TableEntry.construct) R) := by
  have hinv := inv_of_reachable hst
  rcases Bind_cases MaxSize R ID st.1 st.2 with ⟨_, hB⟩ | ⟨_, _, hB⟩ | ⟨_, hex, hB⟩
  · rw [hB] at hok
    simp at hok
  · rw [hB]
    dsimp only
    have hf : find st.1.ResourceCounter (Synchronize (inserted R st.1) st.2).list.ResourceMap =
        some (TableEntry.FromHost
          ((find st.1.ResourceCounter st.1.ResourceMap).getD TableEntry.construct) R) := by
      rw [Synchronize_ResourceMap]
      exact find_stored_self _ _ _
    refine ⟨?_, ?_⟩
    · rw [Exists_eq_true_iff]
      exact ⟨hinv.nonneg, by rw [hf]; rfl⟩
    · rw [index_of_present hf]
  · rw [hB]
    dsimp only
    have hf : find ID (Synchronize (overwritten R ID st.1) st.2).list.ResourceMap =
        some (TableEntry.FromHost ((find ID st.1.ResourceMap).getD TableEntry.construct) R) := by
      rw [Synchronize_ResourceMap]
      exact find_stored_self _ _ _
    refine ⟨?_, ?_⟩
    · rw [Exists_eq_true_iff]
      exact ⟨nonneg_of_Exists hex, by rw [hf]; rfl⟩
    · rw [index_of_present hf]

theorem C1_bind_then_exists_and_index_witness :
    Reachable 256 sampleOne ∧ (Bind 256 7 0 sampleOne.1 sampleOne.2).thrown = none ∧
    (Bind 256 7 0 sampleOne.1 sampleOne.2).list.Exists
      (Bind 256 7 0 sampleOne.1 sampleOne.2).ID = true ∧
    (index (Bind 256 7 0 sampleOne.1 sampleOne.2).list
      (Bind 256 7 0 sampleOne.1 sampleOne.2).ID).1 =
      .ok (TableEntry.FromHost
        ((find (Bind 256 7 0 sampleOne.1 sampleOne.2).ID sampleOne.1.ResourceMap).getD
          TableEntry.construct) 7) :=
  ⟨⟨"gpLights", Backend.idle, [Call.Bind 5 (-1)], rfl⟩, by decide,
    C1_bind_then_exists_and_index 256 sampleOne 7 0
      ⟨"gpLights", Backend.idle, [Call.Bind 5 (-1)], rfl⟩ (by decide)⟩

/-- C2: on a table that holds exactly MaxSize entries, Bind with a handle that does not exist
throws the capacity-exceeded exception and changes nothing: the table (entries and values,
size, handle counter, remap table, device pointer), the caller's ID and the runtime are what
they were before the call. -/
theorem C2_bind_at_capacity_fails_unchanged [TableEntry T H] (MaxSize : Nat) (s : CudaList T)
    (b : Backend T) (R : H) (ID : Int) (hfull : s.ResourceMap.length = MaxSize)
    (_hnew : s.Exists ID = false) :
    Bind MaxSize R ID s b = ⟨some capacityExceeded, ID, s, b⟩ := by
  rcases Bind_cases MaxSize R ID s b with ⟨_, hB⟩ | ⟨hlt, _, _⟩ | ⟨hlt, _, _⟩
  · exact hB
  · omega
  · omega

theorem C2_bind_at_capacity_fails_unchanged_witness :
    sampleOne.1.ResourceMap.length = 1 ∧ sampleOne.1.Exists 3 = false ∧
    Bind 1 7 3 sampleOne.1 sampleOne.2 = ⟨some capacityExceeded, 3, sampleOne.1, sampleOne.2⟩ :=
  ⟨by decide, by decide,
    C2_bind_at_capacity_fails_unchanged 1 sampleOne.1 sampleOne.2 7 3 (by decide) (by decide)⟩

/-- C3, refuted as stated: with MaxSize = 1 and the single live handle 0, Bind on the
existing handle 0 throws capacity-exceeded and does not overwrite the entry. -/
theorem C3_counterexample :
    sampleOne.1.ResourceMap.length = 1 ∧ sampleOne.1.Exists 0 = true ∧
    (Bind 1 7 0 sampleOne.1 sampleOne.2).thrown = some capacityExceeded ∧
    find 0 (Bind 1 7 0 sampleOne.1 sampleOne.2).list.ResourceMap = some 5 := by
  decide

/-- C3, amended: on a table that holds fewer than MaxSize entries, Bind with an existing
handle does not throw capacity-exceeded; it overwrites the entry at ID in place with what
FromHost makes of the resource and leaves ID, every other entry, the set of live handles and
the handle counter unchanged.  On a table that holds MaxSize entries or more, Bind throws
capacity-exceeded and changes nothing, whether or not the handle exists. -/
theorem C3_bind_existing_below_capacity [TableEntry T H] (MaxSize : Nat) (s : CudaList T)
    (b : Backend T) (R : H) (ID : Int) :
    (s.ResourceMap.length < MaxSize → s.Exists ID = true →
      (Bind MaxSize R ID s b).thrown ≠ some capacityExceeded ∧
      (Bind MaxSize R ID s b).ID = ID ∧
      find ID (Bind MaxSize R ID s b).list.ResourceMap =
        some (TableEntry.FromHost ((find ID s.ResourceMap).getD TableEntry.construct) R) ∧
      (∀ g, g ≠ ID → find g (Bind MaxSize R ID s b).list.ResourceMap = find g s.ResourceMap) ∧
      (∀ g, (Bind MaxSize R ID s b).list.Exists g = s.Exists g) ∧
      (Bind MaxSize R ID s b).list.ResourceCounter = s.ResourceCounter) ∧
    (MaxSize ≤ s.ResourceMap.length →
      Bind MaxSize R ID s b = ⟨some capacityExceeded, ID, s, b⟩) := by
  constructor
  · intro hlt hex
    rcases Bind_cases MaxSize R ID s b with ⟨hge, _⟩ | ⟨_, hne, _⟩ | ⟨_, _, hB⟩
    · omega
    · rw [hex] at hne
      simp at hne
    · rw [hB]
      dsimp only
      have hself := find_stored_self ID R s.ResourceMap
      refine ⟨?_, rfl, ?_, ?_, ?_, ?_⟩
      · intro hth
        have := Synchronize_level hth
        simp [capacityExceeded] at this
      · rw [Synchronize_ResourceMap]
        exact hself
      · intro g hg
        rw [Synchronize_ResourceMap]
        exact find_stored_ne R s.ResourceMap hg
      · intro g
        rw [Exists_Synchronize]
        unfold Exists
        by_cases hg : g = ID
        · subst hg
          have h1 := find_isSome_of_Exists hex
          show (if g < 0 then false else (find g (stored g R s.ResourceMap)).isSome) = _
          rw [hself, h1]
          rfl
        · show (if g < 0 then false else (find g (stored ID R s.ResourceMap)).isSome) = _
          rw [find_stored_ne R s.ResourceMap hg]
      · rw [Synchronize_ResourceCounter]
        rfl
  · intro hge
    rcases Bind_cases MaxSize R ID s b with ⟨_, hB⟩ | ⟨hlt, _, _⟩ | ⟨hlt, _, _⟩
    · exact hB
    · omega
    · omega

theorem C3_bind_existing_below_capacity_witness :
    (sampleOne.1.ResourceMap.length < 256 ∧ sampleOne.1.Exists 0 = true ∧
      find 0 (Bind 256 7 0 sampleOne.1 sampleOne.2).list.ResourceMap =
        some (TableEntry.FromHost ((find 0 sampleOne.1.ResourceMap).getD TableEntry.construct) 7)) ∧
    (1 ≤ sampleOne.1.ResourceMap.length ∧
      Bind 1 7 0 sampleOne.1 sampleOne.2 = ⟨some capacityExceeded, 0, sampleOne.1, sampleOne.2⟩) :=
  ⟨⟨by decide, by decide,
      ((C3_bind_existing_below_capacity 256 sampleOne.1 sampleOne.2 7 0).1
        (by decide) (by decide)).2.2.1⟩,
    ⟨by decide, (C3_bind_existing_below_capacity 1 sampleOne.1 sampleOne.2 7 0).2 (by decide)⟩⟩

theorem Bind_counter [TableEntry T H] (MaxSize : Nat) (R : H) (ID : Int) (s : CudaList T)
    (b : Backend T) :
    ((Bind MaxSize R ID s b).list.ResourceCounter = s.ResourceCounter + 1 ∧
      (Bind MaxSize R ID s b).ID = s.ResourceCounter ∧
      s.ResourceMap.length < MaxSize ∧ s.Exists ID = false) ∨
    ((Bind MaxSize R ID s b).list.ResourceCounter = s.ResourceCounter ∧
      (Bind MaxSize R ID s b).ID = ID ∧
      (MaxSize ≤ s.ResourceMap.length ∨ s.Exists ID = true)) := by
  rcases Bind_cases MaxSize R ID s b with ⟨hge, hB⟩ | ⟨hlt, hne, hB⟩ | ⟨_, hex, hB⟩
  · exact Or.inr ⟨by rw [hB], by rw [hB], Or.inl hge⟩
  · refine Or.inl ⟨?_, by rw [hB], hlt, hne⟩
    rw [hB]
    dsimp only
    rw [Synchronize_ResourceCounter]
    rfl
  · refine Or.inr ⟨?_, by rw [hB], Or.inr hex⟩
    rw [hB]
    dsimp only
    rw [Synchronize_ResourceCounter]
    rfl

theorem Unbind_counter [TableEntry T H] (ID : Int) (s : CudaList T) (b : Backend T) :
    (Unbind ID s b).list.ResourceCounter = s.ResourceCounter := by
  rw [Unbind_eq]
  split_ifs
  · rfl
  · rw [Synchronize_ResourceCounter]

theorem assignedHandles_spec [TableEntry T H] (MaxSize : Nat) (calls : List (Call H))
    (st : CudaList T × Backend T) :
    ∃ n : Nat,
      assignedHandles MaxSize calls st =
        (List.range n).map (fun (i : Nat) => st.1.ResourceCounter + (i : Int)) ∧
      (exec MaxSize calls st).1.ResourceCounter = st.1.ResourceCounter + (n : Int) := by
  induction calls generalizing st with
  | nil => exact ⟨0, by simp [assignedHandles], by simp [exec]⟩
  | cons c rest ih =>
    cases c with
    | Bind R ID =>
      obtain ⟨n, h1, h2⟩ :=
        ih ((Bind MaxSize R ID st.1 st.2).list, (Bind MaxSize R ID st.1 st.2).backend)
      rcases Bind_counter MaxSize R ID st.1 st.2 with ⟨hc, hid, _, _⟩ | ⟨hc, _, _⟩
      · refine ⟨n + 1, ?_, ?_⟩
        · simp only [assignedHandles]
          rw [h1, if_pos (by rw [hc]; omega), hid]
          dsimp only
          rw [hc, List.range_succ_eq_map]
          simp only [List.map_cons, List.map_map, List.singleton_append, Nat.cast_zero,
            add_zero, List.cons.injEq, true_and]
          apply List.map_congr_left
          intro i _
          simp only [Function.comp_apply, Nat.cast_succ]
          omega
        · simp only [exec]
          rw [h2]
          dsimp only
          rw [hc]
          push_cast
          omega
      · refine ⟨n, ?_, ?_⟩
        · simp only [assignedHandles]
          rw [h1, if_neg (by rw [hc]; simp)]
          dsimp only
          rw [hc]
          rfl
        · simp only [exec]
          rw [h2]
          dsimp only
          rw [hc]
    | Unbind ID =>
      obtain ⟨n, h1, h2⟩ := ih ((Unbind ID st.1 st.2).list, (Unbind ID st.1 st.2).backend)
      refine ⟨n, ?_, ?_⟩
      · simp only [assignedHandles]
        rw [h1]
        dsimp only
        rw [Unbind_counter]
      · simp only [exec]
        rw [h2]
        dsimp only
        rw [Unbind_counter]

/-- C4: starting from a freshly constructed table, after every sequence of Bind and Unbind
calls the handles that Bind assigned to new entries are 0, 1, 2, ... in call order, up to the
handle counter; they are strictly increasing; every live handle is non-negative and smaller
than the counter; and a further Bind that assigns a new handle hands out the counter value,
which was never assigned before (so in particular not one that was removed) and is not live. -/
theorem C4_handles_monotone_never_reused [TableEntry T H] (MaxSize : Nat)
    (pDeviceSymbol : String) (b0 : Backend T) (calls : List (Call H)) :
    assignedHandles MaxSize calls (create pDeviceSymbol, b0) =
      (List.range (exec MaxSize calls
        (create pDeviceSymbol, b0)).1.ResourceCounter.toNat).map Int.ofNat ∧
    (assignedHandles MaxSize calls (create pDeviceSymbol, b0)).Pairwise (fun a c => a < c) ∧
    (∀ e ∈ (exec MaxSize calls (create pDeviceSymbol, b0)).1.ResourceMap,
      0 ≤ e.1 ∧ e.1 < (exec MaxSize calls (create pDeviceSymbol, b0)).1.ResourceCounter) ∧
    (∀ (R : H) (ID : Int),
      (Bind MaxSize R ID (exec MaxSize calls (create pDeviceSymbol, b0)).1
          (exec MaxSize calls (create pDeviceSymbol, b0)).2).list.ResourceCounter ≠
        (exec MaxSize calls (create pDeviceSymbol, b0)).1.ResourceCounter →
      (Bind MaxSize R ID (exec MaxSize calls (create pDeviceSymbol, b0)).1
          (exec MaxSize calls (create pDeviceSymbol, b0)).2).ID =
        (exec MaxSize calls (create pDeviceSymbol, b0)).1.ResourceCounter ∧
      (Bind MaxSize R ID (exec MaxSize calls (create pDeviceSymbol, b0)).1
          (exec MaxSize calls (create pDeviceSymbol, b0)).2).ID ∉
        assignedHandles MaxSize calls (create pDeviceSymbol, b0) ∧
      find (Bind MaxSize R ID (exec MaxSize calls (create pDeviceSymbol, b0)).1
          (exec MaxSize calls (create pDeviceSymbol, b0)).2).ID
        (exec MaxSize calls (create pDeviceSymbol, b0)).1.ResourceMap = none) := by
  obtain ⟨n, h1, h2⟩ := assignedHandles_spec MaxSize calls
    ((create pDeviceSymbol, b0) : CudaList T × Backend T)
  have hinv : Inv (exec MaxSize calls ((create pDeviceSymbol, b0) : CudaList T × Backend T)).1 :=
    inv_exec MaxSize calls _ (inv_create pDeviceSymbol)
  have hc0 : ((create pDeviceSymbol, b0) : CudaList T × Backend T).1.ResourceCounter = 0 := rfl
  rw [hc0, zero_add] at h2
  have hlist : assignedHandles MaxSize calls ((create pDeviceSymbol, b0) :
      CudaList T × Backend T) = (List.range n).map Int.ofNat := by
    rw [h1, hc0]
    apply List.map_congr_left
    intro i _
    simp
  refine ⟨?_, ?_, hinv.bound, ?_⟩
  · rw [hlist, h2]
    simp
  · rw [hlist, List.pairwise_map]
    exact (List.pairwise_lt_range n).imp (fun h => by simpa using h)
  · intro R ID hne
    rcases Bind_counter MaxSize R ID
        (exec MaxSize calls ((create pDeviceSymbol, b0) : CudaList T × Backend T)).1
        (exec MaxSize calls ((create pDeviceSymbol, b0) : CudaList T × Backend T)).2 with
      ⟨_, hid, _, _⟩ | ⟨hc, _, _⟩
    · refine ⟨hid, ?_, ?_⟩
      · rw [hid, hlist, h2]
        simp
      · rw [hid]
        apply find_eq_none_of_forall_ne
        intro e he
        exact ne_of_lt (hinv.bound e he).2
    · exact absurd hc hne

theorem C4_handles_monotone_never_reused_witness :
    assignedHandles 256 [Call.Bind 5 (-1), Call.Bind 6 (-1), Call.Bind 7 (-1), Call.Unbind 1,
      Call.Bind 8 1] (create "gpLights", (Backend.idle : Backend Nat)) = [0, 1, 2, 3] ∧
    (Bind 256 9 1 sampleGap.1 sampleGap.2).list.ResourceCounter ≠ sampleGap.1.ResourceCounter ∧
    (Bind 256 9 1 sampleGap.1 sampleGap.2).ID = 3 ∧
    find (Bind 256 9 1 sampleGap.1 sampleGap.2).ID sampleGap.1.ResourceMap = none :=
  ⟨by decide, by decide,
    ((C4_handles_monotone_never_reused 256 "gpLights" (Backend.idle : Backend Nat)
      [Call.Bind 5 (-1), Call.Bind 6 (-1), Call.Bind 7 (-1), Call.Unbind 1]).2.2.2 9 1
        (by decide)).1,
    ((C4_handles_monotone_never_reused 256 "gpLights" (Backend.idle : Backend Nat)
      [Call.Bind 5 (-1), Call.Bind 6 (-1), Call.Bind 7 (-1), Call.Unbind 1]).2.2.2 9 1
        (by decide)).2.2⟩

/-- C5: for every table state and every handle h, Unbind(h) removes exactly h: afterwards
Exists(h) is false and every other handle has the same existence and the same stored value as
before.  When h is not in the table (no entry under h, or h negative) Unbind(h) returns
without throwing and leaves the whole table (entries, remap table, handle counter, device
pointer) and the runtime, hence the device buffer, as they were. -/
theorem C5_unbind_removes_exactly [TableEntry T H] (s : CudaList T) (b : Backend T) (h : Int) :
    (Unbind h s b).list.Exists h = false ∧
    (∀ g, g ≠ h → (Unbind h s b).list.Exists g = s.Exists g ∧
      find g (Unbind h s b).list.ResourceMap = find g s.ResourceMap) ∧
    (find h s.ResourceMap = none ∨ h < 0 → Unbind h s b = ⟨none, s, b⟩) := by
  rw [Unbind_eq]
  refine ⟨?_, ?_, ?_⟩
  · split_ifs with he
    · exact he
    · rw [Exists_Synchronize]
      unfold Exists
      show (if h < 0 then false else (find h (erase h s.ResourceMap)).isSome) = false
      rw [find_erase_self]
      simp
  · intro g hg
    split_ifs with he
    · exact ⟨rfl, rfl⟩
    · rw [Exists_Synchronize, Synchronize_ResourceMap]
      have hf : find g (erase h s.ResourceMap) = find g s.ResourceMap :=
        find_erase_ne s.ResourceMap hg
      refine ⟨?_, hf⟩
      unfold Exists
      show (if g < 0 then false else (find g (erase h s.ResourceMap)).isSome) = _
      rw [hf]
  · intro hab
    have he : s.Exists h = false := by
      unfold Exists
      rcases hab with h1 | h1
      · rw [h1]; simp
      · simp [h1]
    rw [if_pos he]

theorem C5_unbind_removes_exactly_witness :
    (1 : Int) ≠ 0 ∧
    ((Unbind 0 sampleGap.1 sampleGap.2).list.Exists 2 = sampleGap.1.Exists 2 ∧
      find 2 (Unbind 0 sampleGap.1 sampleGap.2).list.ResourceMap =
        find 2 sampleGap.1.ResourceMap) ∧
    (find 1 sampleGap.1.ResourceMap = none ∨ (1 : Int) < 0) ∧
    Unbind 1 sampleGap.1 sampleGap.2 = ⟨none, sampleGap.1, sampleGap.2⟩ :=
  ⟨by decide, (C5_unbind_removes_exactly sampleGap.1 sampleGap.2 0).2.1 2 (by decide),
    Or.inl (by decide),
    (C5_unbind_removes_exactly sampleGap.1 sampleGap.2 1).2.2 (Or.inl (by decide))⟩

/-- C6: in every table state reached from a freshly constructed table by Bind/Unbind calls and
for every integer handle h, operator[](h) throws (and what it throws is the fatal not-found
exception) exactly when Exists(h) is false; Exists(h) is false for every negative h and for
every h that is not a live handle; and when Exists(h) is true operator[](h) returns the entry
stored under h and leaves the table as it was. -/
theorem C6_index_throws_iff_not_exists [TableEntry T H] (MaxSize : Nat)
    (st : CudaList T × Backend T) (h : Int) (hst : Reachable MaxSize st) :
    ((∃ e, (index st.1 h).1 = .error e) ↔ st.1.Exists h = false) ∧
    (st.1.Exists h = false → index st.1 h = (.error notFound, st.1)) ∧
    (h < 0 → st.1.Exists h = false) ∧
    (find h st.1.ResourceMap = none → st.1.Exists h = false) ∧
    (st.1.Exists h = true →
      ∃ v, find h st.1.ResourceMap = some v ∧ index st.1 h = (.ok v, st.1)) := by
  have hinv := inv_of_reachable hst
  have hneg : h < 0 → find h st.1.ResourceMap = none := by
    intro hlt
    apply find_eq_none_of_forall_ne
    intro e he heq
    have := (hinv.bound e he).1
    omega
  have habs : st.1.Exists h = false → find h st.1.ResourceMap = none := by
    intro he
    by_cases hlt : h < 0
    · exact hneg hlt
    · unfold Exists at he
      rw [if_neg hlt] at he
      simpa using he
  have hpres : st.1.Exists h = true → ∃ v, find h st.1.ResourceMap = some v := fun he =>
    Option.isSome_iff_exists.mp (find_isSome_of_Exists he)
  refine ⟨⟨?_, ?_⟩, ?_, ?_, ?_, ?_⟩
  · rintro ⟨e, he⟩
    by_contra hex
    obtain ⟨v, hv⟩ := hpres (by simpa using hex)
    rw [index_of_present hv] at he
    simp at he
  · intro he
    exact ⟨notFound, by rw [index_of_absent (habs he)]⟩
  · intro he
    exact index_of_absent (habs he)
  · intro hlt
    unfold Exists
    rw [if_pos hlt]
  · intro hf
    unfold Exists
    rw [hf]
    simp
  · intro he
    obtain ⟨v, hv⟩ := hpres he
    exact ⟨v, hv, index_of_present hv⟩

theorem C6_index_throws_iff_not_exists_witness :
    Reachable 256 sampleGap ∧
    (sampleGap.1.Exists 1 = false ∧ index sampleGap.1 1 = (.error notFound, sampleGap.1)) ∧
    (sampleGap.1.Exists 2 = true ∧
      ∃ v, find 2 sampleGap.1.ResourceMap = some v ∧ index sampleGap.1 2 = (.ok v, sampleGap.1)) :=
  ⟨⟨"gpLights", Backend.idle,
      [Call.Bind 5 (-1), Call.Bind 6 (-1), Call.Bind 7 (-1), Call.Unbind 1], rfl⟩,
    ⟨by decide,
      (C6_index_throws_iff_not_exists 256 sampleGap 1
        ⟨"gpLights", Backend.idle,
          [Call.Bind 5 (-1), Call.Bind 6 (-1), Call.Bind 7 (-1), Call.Unbind 1], rfl⟩).2.1
        (by decide)⟩,
    ⟨by decide,
      (C6_index_throws_iff_not_exists 256 sampleGap 2
        ⟨"gpLights", Backend.idle,
          [Call.Bind 5 (-1), Call.Bind 6 (-1), Call.Bind 7 (-1), Call.Unbind 1], rfl⟩).2.2.2.2
        (by decide)⟩⟩

theorem writeCells_full (data cells : List (Option T)) (h : data.length = cells.length) :
    writeCells data cells.length cells = data := by
  unfold writeCells
  rw [← h, List.take_length, List.drop_eq_nil_of_le (by omega), List.append_nil,
    List.take_length]

theorem fill_host_replicate [TableEntry T H] (m : List (Int × T)) (hm : List (Int × Nat)) :
    (fill m (List.replicate m.length (TableEntry.construct : T), hm, 0)).1 =
      m.map Prod.snd := by
  rw [fill_host _ _ _ _ (by simp)]
  simp

theorem Synchronize_of_empty [TableEntry T H] {s : CudaList T} (b : Backend T)
    (h : s.ResourceMap = []) : Synchronize s b = ⟨none, s, b⟩ := by
  unfold Synchronize
  rw [if_pos (by rw [h]; simp)]

theorem Synchronize_ok [TableEntry T H] (s : CudaList T) {b : Backend T} (h : b.allSucceed) :
    (Synchronize s b).thrown = none ∧ (Synchronize s b).backend.allSucceed ∧
    DeviceInSync (Synchronize s b).list (Synchronize s b).backend := by
  by_cases hem : s.ResourceMap = []
  · rw [Synchronize_of_empty b hem]
    exact ⟨rfl, h, fun hne => absurd hem hne⟩
  · have hlen : ¬ s.ResourceMap.length ≤ 0 := by
      intro h0
      exact hem (List.length_eq_zero.mp (Nat.le_zero.mp h0))
    obtain ⟨b1, hF, h1, hs1⟩ := CUDA.Free_ok s.DevicePtr h
    obtain ⟨a, rest, b2, hA, h2, hm2, hs2⟩ :=
      CUDA.Allocate_ok none (s.ResourceMap.length : Int) h1
    obtain ⟨b3, hM, h3, hm3, hs3⟩ := CUDA.MemCopyHostToDevice_ok
      (fill s.ResourceMap
        (List.replicate s.ResourceMap.length (TableEntry.construct : T), s.HashMap, 0)).1
      (some a)
      ((fill s.ResourceMap
        (List.replicate s.ResourceMap.length (TableEntry.construct : T), s.HashMap, 0)).2.2 : Int)
      h2
    obtain ⟨b4, hS, h4, hm4, hs4⟩ :=
      CUDA.MemCopyHostToDeviceSymbol_ok (some a) s.DeviceSymbol 1 h3
    have hres : Synchronize s b =
        ⟨none, { s with HashMap := (fill s.ResourceMap
            (List.replicate s.ResourceMap.length (TableEntry.construct : T),
              s.HashMap, 0)).2.1, DevicePtr := some a }, b4⟩ := by
      unfold Synchronize
      rw [if_neg hlen]
      dsimp only
      rw [hF]
      dsimp only
      rw [hA]
      dsimp only
      rw [hM]
      dsimp only
      rw [hS]
    rw [hres]
    refine ⟨rfl, h4, ?_⟩
    intro _
    refine ⟨a, rfl, ?_, ?_⟩
    · unfold Backend.buffer
      rw [hm4, hm3, hm2, fill_size, fill_host_replicate]
      simp only [List.map_cons, if_true, List.find?_cons, beq_self_eq_true, Option.map_some',
        zero_add, Int.toNat_ofNat]
      have hw := writeCells_full (List.map some (List.map Prod.snd s.ResourceMap))
        (List.replicate s.ResourceMap.length (none : Option T)) (by simp)
      rw [List.length_replicate] at hw
      rw [hw, List.map_map]
      rfl
    · unfold Backend.symbolValue
      rw [hs4]
      simp

theorem inSync_Bind [TableEntry T H] (MaxSize : Nat) (R : H) (ID : Int) {s : CudaList T}
    {b : Backend T} (h : b.allSucceed) (hd : DeviceInSync s b) :
    (Bind MaxSize R ID s b).backend.allSucceed ∧
    DeviceInSync (Bind MaxSize R ID s b).list (Bind MaxSize R ID s b).backend := by
  rcases Bind_cases MaxSize R ID s b with ⟨_, hB⟩ | ⟨_, _, hB⟩ | ⟨_, _, hB⟩
  · rw [hB]
    exact ⟨h, hd⟩
  · rw [hB]
    exact (Synchronize_ok (inserted R s) h).2
  · rw [hB]
    exact (Synchronize_ok (overwritten R ID s) h).2

theorem inSync_Unbind [TableEntry T H] (ID : Int) {s : CudaList T} {b : Backend T}
    (h : b.allSucceed) (hd : DeviceInSync s b) :
    (Unbind ID s b).backend.allSucceed ∧
    DeviceInSync (Unbind ID s b).list (Unbind ID s b).backend := by
  rw [Unbind_eq]
  split_ifs
  · exact ⟨h, hd⟩
  · exact (Synchronize_ok _ h).2

theorem inSync_exec [TableEntry T H] (MaxSize : Nat) (calls : List (Call H))
    (st : CudaList T × Backend T) (h : st.2.allSucceed) (hd : DeviceInSync st.1 st.2) :
    (exec MaxSize calls st).2.allSucceed ∧
    DeviceInSync (exec MaxSize calls st).1 (exec MaxSize calls st).2 := by
  induction calls generalizing st with
  | nil => exact ⟨h, hd⟩
  | cons c rest ih =>
    cases c with
    | Bind R ID =>
      exact ih _ (inSync_Bind MaxSize R ID h hd).1 (inSync_Bind MaxSize R ID h hd).2
    | Unbind ID => exact ih _ (inSync_Unbind ID h hd).1 (inSync_Unbind ID h hd).2

theorem inSync_of_reachableOk [TableEntry T H] {MaxSize : Nat} {st : CudaList T × Backend T}
    (h : ReachableOk MaxSize st) : st.2.allSucceed ∧ DeviceInSync st.1 st.2 ∧ Inv st.1 := by
  obtain ⟨sym, b0, calls, h0, rfl⟩ := h
  have := inSync_exec MaxSize calls ((create sym, b0) : CudaList T × Backend T) h0
    (fun hne => absurd rfl hne)
  exact ⟨this.1, this.2, inv_exec MaxSize calls _ (inv_create sym)⟩

theorem get_rank {m : List (Int × T)} {h : Int} {v : T} (ha : Ascending m)
    (hf : find h m = some v) : m[rank h m]? = some (h, v) := by
  induction m with
  | nil => simp [find] at hf
  | cons e rest ih =>
    obtain ⟨k, w⟩ := e
    have hk : ∀ e ∈ rest, k < e.1 := (List.pairwise_cons.mp ha).1
    by_cases hkh : k = h
    · subst hkh
      have h0 : rank k ((k, w) :: rest) = 0 :=
        rank_eq_zero_of_forall_le (fun e he => by
          rcases List.mem_cons.mp he with h3 | h3
          · simp [h3]
          · exact le_of_lt (hk e h3))
      simp [find] at hf
      subst hf
      rw [h0]
      simp
    · simp only [find, hkh, if_false] at hf
      have hlt : k < h := hk (h, v) (mem_of_find_eq_some hf)
      have hr : rank h ((k, w) :: rest) = rank h rest + 1 := by
        simp [rank, List.filter_cons, hlt]
      rw [hr, List.getElem?_cons_succ]
      exact ih (List.pairwise_cons.mp ha).2 hf

/-- C7: after every sequence of Bind/Unbind calls on a fresh table, all device calls
succeeding, the remap table HashMap has exactly the live handles as keys and maps each live
handle to the number of live handles smaller than it; its positions are therefore a
permutation of [0, count) for the live entry count; and the array copied to the device (the
buffer at DevicePtr) holds at position HashMap[h] the entry stored for h. -/
theorem C7_remap_table_dense_positions [TableEntry T H] (MaxSize : Nat)
    (st : CudaList T × Backend T) (hst : ReachableOk MaxSize st) :
    keys st.1.HashMap = keys st.1.ResourceMap ∧
    (∀ h, find h st.1.HashMap =
      (find h st.1.ResourceMap).map (fun _ => rank h st.1.ResourceMap)) ∧
    List.Perm (st.1.HashMap.map Prod.snd) (List.range st.1.ResourceMap.length) ∧
    (∀ h v, find h st.1.ResourceMap = some v →
      ∃ p cells, find h st.1.HashMap = some p ∧ st.2.buffer st.1.DevicePtr = some cells ∧
        cells[p]? = some (some v)) := by
  obtain ⟨_, hsync, hinv⟩ := inSync_of_reachableOk hst
  have hfind : ∀ h, find h st.1.HashMap =
      (find h st.1.ResourceMap).map (fun _ => rank h st.1.ResourceMap) := by
    intro h
    rw [hinv.hash, find_positionsFrom 0 hinv.asc]
    simp
  refine ⟨?_, hfind, ?_, ?_⟩
  · rw [hinv.hash, map_fst_positionsFrom]
  · rw [hinv.hash, map_snd_positionsFrom, List.range_eq_range']
  · intro h v hv
    have hne : st.1.ResourceMap ≠ [] := by
      intro hnil
      rw [hnil] at hv
      simp [find] at hv
    obtain ⟨a, hp, hbuf, _⟩ := hsync hne
    refine ⟨rank h st.1.ResourceMap, _, ?_, by rw [hp]; exact hbuf, ?_⟩
    · rw [hfind h, hv]
      rfl
    · rw [List.getElem?_map, get_rank hinv.asc hv]
      rfl

theorem C7_remap_table_dense_positions_witness :
    ReachableOk 256 sampleGap ∧ sampleGap.1.HashMap = [(0, 0), (2, 1)] ∧
    List.Perm (sampleGap.1.HashMap.map Prod.snd) (List.range sampleGap.1.ResourceMap.length) ∧
    (find 2 sampleGap.1.ResourceMap = some 7 ∧
      ∃ p cells, find 2 sampleGap.1.HashMap = some p ∧
        sampleGap.2.buffer sampleGap.1.DevicePtr = some cells ∧ cells[p]? = some (some 7)) :=
  ⟨⟨"gpLights", Backend.idle,
      [Call.Bind 5 (-1), Call.Bind 6 (-1), Call.Bind 7 (-1), Call.Unbind 1], by decide, rfl⟩,
    by decide,
    (C7_remap_table_dense_positions 256 sampleGap
      ⟨"gpLights", Backend.idle,
        [Call.Bind 5 (-1), Call.Bind 6 (-1), Call.Bind 7 (-1), Call.Unbind 1],
        by decide, rfl⟩).2.2.1,
    by decide,
    (C7_remap_table_dense_positions 256 sampleGap
      ⟨"gpLights", Backend.idle,
        [Call.Bind 5 (-1), Call.Bind 6 (-1), Call.Bind 7 (-1), Call.Unbind 1],
        by decide, rfl⟩).2.2.2 2 7 (by decide)⟩

/-- C8, refuted as stated: after Bind followed by Unbind of the handle it assigned, all device
calls succeeding, the table has no live entry, yet the device buffer it owns and has
published in its device symbol still has one cell (the removed entry). -/
theorem C8_counterexample :
    ReachableOk 256 sampleEmptied ∧ sampleEmptied.1.ResourceMap.length = 0 ∧
    sampleEmptied.2.buffer sampleEmptied.1.DevicePtr = some [some 5] ∧
    sampleEmptied.2.symbolValue sampleEmptied.1.DeviceSymbol =
      some sampleEmptied.1.DevicePtr ∧
    (sampleEmptied.2.buffer sampleEmptied.1.DevicePtr).map List.length ≠
      some sampleEmptied.1.ResourceMap.length :=
  ⟨⟨"gpLights", Backend.idle, [Call.Bind 5 (-1), Call.Unbind 0], by decide, rfl⟩,
    by decide, by decide, by decide, by decide⟩

/-- C8, amended: after any sequence of Bind/Unbind calls on a fresh table, all device calls
succeeding, that leaves the table non-empty, the device array that the table owns and has
published in its device symbol has length equal to the live entry count.  An Unbind that
removes the last remaining entry issues no device call and keeps the device pointer, so the
previously published array stays in place. -/
theorem C8_device_array_length_when_nonempty [TableEntry T H] (MaxSize : Nat)
    (st : CudaList T × Backend T) (hst : ReachableOk MaxSize st) :
    (st.1.ResourceMap ≠ [] →
      ∃ a cells, st.1.DevicePtr = some a ∧ st.2.buffer (some a) = some cells ∧
        cells.length = st.1.ResourceMap.length ∧
        st.2.symbolValue st.1.DeviceSymbol = some (some a)) ∧
    (∀ h, (Unbind h st.1 st.2).list.ResourceMap = [] →
      (Unbind h st.1 st.2).backend = st.2 ∧
      (Unbind h st.1 st.2).list.DevicePtr = st.1.DevicePtr) := by
  obtain ⟨_, hsync, _⟩ := inSync_of_reachableOk hst
  constructor
  · intro hne
    obtain ⟨a, hp, hbuf, hsym⟩ := hsync hne
    exact ⟨a, _, hp, hbuf, by simp, hsym⟩
  · intro h
    rw [Unbind_eq]
    split_ifs with he
    · intro _
      exact ⟨rfl, rfl⟩
    · intro hnil
      rw [Synchronize_ResourceMap] at hnil
      rw [Synchronize_of_empty st.2 hnil]
      exact ⟨rfl, rfl⟩

theorem C8_device_array_length_when_nonempty_witness :
    ReachableOk 256 sampleGap ∧ sampleGap.1.ResourceMap ≠ [] ∧
    (∃ a cells, sampleGap.1.DevicePtr = some a ∧ sampleGap.2.buffer (some a) = some cells ∧
        cells.length = sampleGap.1.ResourceMap.length ∧
        sampleGap.2.symbolValue sampleGap.1.DeviceSymbol = some (some a)) ∧
    (Unbind 0 sampleOne.1 sampleOne.2).list.ResourceMap = [] ∧
    (Unbind 0 sampleOne.1 sampleOne.2).backend = sampleOne.2 :=
  ⟨⟨"gpLights", Backend.idle,
      [Call.Bind 5 (-1), Call.Bind 6 (-1), Call.Bind 7 (-1), Call.Unbind 1], by decide, rfl⟩,
    by decide,
    (C8_device_array_length_when_nonempty 256 sampleGap
      ⟨"gpLights", Backend.idle,
        [Call.Bind 5 (-1), Call.Bind 6 (-1), Call.Bind 7 (-1), Call.Unbind 1],
        by decide, rfl⟩).1 (by decide),
    by decide,
    ((C8_device_array_length_when_nonempty 256 sampleOne
      ⟨"gpLights", Backend.idle, [Call.Bind 5 (-1)], by decide, rfl⟩).2 0 (by decide)).1⟩

end CudaList

/-! ## Texture rebinding -/

namespace CUDA

theorem BindTexture1D_frees_before_allocating {b : Backend T} (tex : textureReference) (n : Int)
    (buf : HostPtr) (p : DevPtr) (fm : cudaTextureFilterMode) (am : cudaTextureAddressMode)
    (nrm : Bool) (h : b.allSucceed) :
    ∃ front back,
      (BindTexture1D tex n buf p fm am nrm b).2.2.trace =
        b.trace ++ front ++ CudaCall.cudaFreeArray p :: back ∧
      CudaCall.cudaMallocArray n 1 ∈ back ∧ CudaCall.cudaMallocArray n 1 ∉ front ∧
      (BindTexture1D tex n buf p fm am nrm b).2.1.pCudaArray = some b.next :=
  ⟨[.cudaThreadSynchronize, .cudaThreadSynchronize],
    [.cudaThreadSynchronize, .cudaMallocArray n 1, .cudaMemcpyToArray (some b.next) buf n,
      .cudaBindTextureToArray tex.ref (some b.next), .cudaThreadSynchronize],
    by rw [(BindTexture1D_trace tex n buf p fm am nrm h).2.2.2]; simp,
    by simp, by simp, (BindTexture1D_trace tex n buf p fm am nrm h).2.1⟩

theorem BindTexture3D_never_frees {b : Backend T} (tex : textureReference)
    (ext : Int × Int × Int) (buf : HostPtr) (p : DevPtr) (fm : cudaTextureFilterMode)
    (am : cudaTextureAddressMode) (nrm : Bool) (h : b.allSucceed) :
    ∃ issued,
      (BindTexture3D tex ext buf p fm am nrm b).2.2.trace = b.trace ++ issued ∧
      ∀ x, CudaCall.cudaFreeArray x ∉ issued :=
  ⟨_, (BindTexture3D_trace tex ext buf p fm am nrm h).2.2.2, by simp⟩

/-- C11, the failing input: `BindTexture3D` is called with the handle of the array a first
bind allocated.  It returns normally without having issued any `cudaFreeArray`: the handle then
refers to the new array while the previous array is still allocated.  `BindTexture1D` on the
same kind of input frees the previous array before it allocates the new one. -/
theorem C11_BindTexture3D_does_not_free_previous_array :
    sampleBind3D.2.1.pCudaArray = some 1 ∧ sampleBind3D.2.2.liveArrays = [1] ∧
    sampleRebind3D.1 = none ∧ sampleRebind3D.2.1.pCudaArray = some 2 ∧
    sampleRebind3D.2.2.trace.drop sampleBind3D.2.2.trace.length =
      [.cudaThreadSynchronize, .cudaMalloc3DArray 4 4 4, .cudaMemcpy3D (some 2) 200 4 4 4,
        .cudaBindTextureToArray 7 (some 2), .cudaThreadSynchronize] ∧
    sampleRebind3D.2.2.liveArrays = [2, 1] ∧
    sampleRebind1D.2.2.trace.drop sampleBind1D.2.2.trace.length =
      [.cudaThreadSynchronize, .cudaThreadSynchronize, .cudaFreeArray (some 1),
        .cudaThreadSynchronize, .cudaMallocArray 16 1, .cudaMemcpyToArray (some 2) 200 16,
        .cudaBindTextureToArray 7 (some 2), .cudaThreadSynchronize] ∧
    sampleRebind1D.2.2.liveArrays = [2] := by
  decide

end CUDA

/-! ## The volume binding manager -/

namespace vtkErVolumeInfo

/-- C12, the failing input: the first `SetInputData` of a fresh manager, all device calls
succeeding.  The intensity field (the cast image) lives in host buffer `200` and the
gradient-magnitude field in host buffer `300`; both textures get the extent `64 x 32 x 16`
(max index + 1), and the gradient-magnitude texture samples buffer `300`, but the intensity
texture samples buffer `300` as well instead of buffer `200`. -/
theorem C12_intensity_texture_bound_to_gradient_buffer :
    sampleFirstInput.thrown = none ∧
    sampleFirstInput.info.m_pIntensity.map vtkImageData.ScalarPointer = some 200 ∧
    sampleFirstInput.info.m_pGradientMagnitude.map vtkImageData.ScalarPointer = some 300 ∧
    sampleFirstInput.backend.textureExtent sampleFirstInput.core.gTexIntensity.ref =
      some (64, 32, 16) ∧
    sampleFirstInput.backend.textureExtent sampleFirstInput.core.gTexGradientMagnitude.ref =
      some (64, 32, 16) ∧
    sampleFirstInput.backend.textureSource sampleFirstInput.core.gTexGradientMagnitude.ref =
      some 300 ∧
    sampleFirstInput.backend.textureSource sampleFirstInput.core.gTexIntensity.ref = some 300 ∧
    sampleFirstInput.backend.textureSource sampleFirstInput.core.gTexIntensity.ref ≠
      sampleFirstInput.info.m_pIntensity.map vtkImageData.ScalarPointer := by
  decide

theorem inverseOrZero_some (x : ℚ) : inverseOrZero (some x) = some (inverseSpec x) := by
  unfold inverseOrZero inverseSpec fdiv
  by_cases h : x = 0
  · simp [h]
  · simp [h]

theorem SetInputData_info (F : Filters) (Input : vtkImageData) (m : vtkErVolumeInfo) (c : Core)
    (b : Backend T) (hU : m.m_pIntensity = none) :
    (SetInputData F (some Input) m c b).info =
      { m_VolumeInfo := deriveMetadata m.m_VolumeInfo (F.ImageCast Input),
        m_pIntensity := some (F.ImageCast Input),
        m_pGradientMagnitude := some (F.GradientMagnitude (F.ImageCast Input)) } := by
  unfold SetInputData
  rw [if_neg (by rw [hU]; simp)]
  dsimp only
  rw [if_pos (by rw [hU]; simp)]
  split <;> rfl

/-- C13: for every bounds and spacing of the input volume, taken as exact rationals, the first
`SetInputData` (manager Unbound, input non-null) sets Extent to max - min per axis, MinAABB to
min, MaxAABB to max, and every component of InvExtent, InvSpacing, InvMinAABB and InvMaxAABB
to 1/x when the corresponding component x is non-zero and to 0 when it is zero; each of these
is a number, so no division by zero takes place.  This holds whether or not the texture binds
that follow succeed. -/
theorem C13_metadata_extent_and_guarded_inverses (F : Filters) (Input : vtkImageData)
    (m : vtkErVolumeInfo) (c : Core) (b : Backend T) (hU : m.m_pIntensity = none) :
    (SetInputData F (some Input) m c b).info.m_VolumeInfo.m_Extent =
      ⟨some (Input.Bounds.a1 - Input.Bounds.a0), some (Input.Bounds.a3 - Input.Bounds.a2),
        some (Input.Bounds.a5 - Input.Bounds.a4)⟩ ∧
    (SetInputData F (some Input) m c b).info.m_VolumeInfo.m_MinAABB =
      ⟨some Input.Bounds.a0, some Input.Bounds.a2, some Input.Bounds.a4⟩ ∧
    (SetInputData F (some Input) m c b).info.m_VolumeInfo.m_MaxAABB =
      ⟨some Input.Bounds.a1, some Input.Bounds.a3, some Input.Bounds.a5⟩ ∧
    (SetInputData F (some Input) m c b).info.m_VolumeInfo.m_InvExtent =
      ⟨some (inverseSpec (Input.Bounds.a1 - Input.Bounds.a0)),
        some (inverseSpec (Input.Bounds.a3 - Input.Bounds.a2)),
        some (inverseSpec (Input.Bounds.a5 - Input.Bounds.a4))⟩ ∧
    (SetInputData F (some Input) m c b).info.m_VolumeInfo.m_InvSpacing =
      ⟨some (inverseSpec Input.Spacing.1), some (inverseSpec Input.Spacing.2.1),
        some (inverseSpec Input.Spacing.2.2)⟩ ∧
    (SetInputData F (some Input) m c b).info.m_VolumeInfo.m_InvMinAABB =
      ⟨some (inverseSpec Input.Bounds.a0), some (inverseSpec Input.Bounds.a2),
        some (inverseSpec Input.Bounds.a4)⟩ ∧
    (SetInputData F (some Input) m c b).info.m_VolumeInfo.m_InvMaxAABB =
      ⟨some (inverseSpec Input.Bounds.a1), some (inverseSpec Input.Bounds.a3),
        some (inverseSpec Input.Bounds.a5)⟩ := by
  rw [SetInputData_info F Input m c b hU]
  refine ⟨?_, ?_, ?_, ?_, ?_, ?_, ?_⟩ <;>
    simp only [deriveMetadata, inverseOrZero_some, Filters.ImageCast]

theorem C13_metadata_extent_and_guarded_inverses_witness :
    (create sampleVolumeInfo).m_pIntensity = none ∧
    sampleFirstInput.info.m_VolumeInfo.m_Extent = ⟨some 10, some 20, some 30⟩ ∧
    sampleFirstInput.info.m_VolumeInfo.m_InvExtent =
      ⟨some (1 / 10), some (1 / 20), some (1 / 30)⟩ ∧
    sampleFirstInput.info.m_VolumeInfo.m_InvMinAABB = ⟨some 0, some 0, some 0⟩ ∧
    sampleFirstInput.info.m_VolumeInfo.m_InvMaxAABB =
      ⟨some (1 / 10), some (1 / 20), some (1 / 30)⟩ ∧
    (SetInputData sampleFilters (some sampleFlatImage) (create sampleVolumeInfo) sampleCore
      (Backend.idle : Backend Nat)).info.m_VolumeInfo.m_InvExtent =
      ⟨some 0, some 0, some 0⟩ := by
  have h1 := C13_metadata_extent_and_guarded_inverses sampleFilters sampleImage
    (create sampleVolumeInfo) sampleCore (Backend.idle : Backend Nat) rfl
  have h2 := C13_metadata_extent_and_guarded_inverses sampleFilters sampleFlatImage
    (create sampleVolumeInfo) sampleCore (Backend.idle : Backend Nat) rfl
  refine ⟨rfl, ?_, ?_, ?_, ?_, ?_⟩
  · rw [sampleFirstInput, h1.1]
    norm_num [sampleImage]
  · rw [sampleFirstInput, h1.2.2.2.1]
    norm_num [sampleImage, inverseSpec]
  · rw [sampleFirstInput, h1.2.2.2.2.2.1]
    norm_num [sampleImage, inverseSpec]
  · rw [sampleFirstInput, h1.2.2.2.2.2.2]
    norm_num [sampleImage, inverseSpec]
  · rw [h2.2.2.2.1]
    norm_num [sampleFlatImage, inverseSpec]

/-- C14: the manager never leaves the Bound state and never rebinds.  For every Bound manager
(`m_pIntensity` non-null) and every input, null or not, `SetInputData` returns without
throwing and leaves the manager (metadata and both bound images), the texture state and the
runtime exactly as they were, so it issues no texture bind; `Update` does not touch the two
bound images either.  In the Unbound state a null input leaves everything as it was, the
manager still Unbound. -/
theorem C14_bound_manager_ignores_input (F : Filters) (pInputData : Option vtkImageData)
    (m : vtkErVolumeInfo) (c : Core) (b : Backend T)
    (P : Option vtkErVolumeProperty) (D : vtkErVolumeProperty) :
    (m.m_pIntensity ≠ none → SetInputData F pInputData m c b = ⟨none, m, c, b⟩) ∧
    (m.m_pIntensity = none → SetInputData F none m c b = ⟨none, m, c, b⟩) ∧
    (Update P D m).m_pIntensity = m.m_pIntensity ∧
    (Update P D m).m_pGradientMagnitude = m.m_pGradientMagnitude := by
  refine ⟨?_, ?_, rfl, rfl⟩
  · intro hB
    unfold SetInputData
    rw [if_pos hB]
  · intro hU
    unfold SetInputData
    rw [if_neg (by rw [hU]; simp)]

theorem C14_bound_manager_ignores_input_witness :
    sampleFirstInput.info.m_pIntensity ≠ none ∧
    SetInputData sampleFilters (some sampleFlatImage) sampleFirstInput.info
        sampleFirstInput.core sampleFirstInput.backend =
      ⟨none, sampleFirstInput.info, sampleFirstInput.core, sampleFirstInput.backend⟩ ∧
    (create sampleVolumeInfo).m_pIntensity = none ∧
    SetInputData sampleFilters none (create sampleVolumeInfo) sampleCore
        (Backend.idle : Backend Nat) =
      ⟨none, create sampleVolumeInfo, sampleCore, Backend.idle⟩ :=
  ⟨by decide,
    (C14_bound_manager_ignores_input sampleFilters (some sampleFlatImage) sampleFirstInput.info
      sampleFirstInput.core sampleFirstInput.backend none sampleDefault).1 (by decide),
    rfl,
    (C14_bound_manager_ignores_input sampleFilters none (create sampleVolumeInfo) sampleCore
      (Backend.idle : Backend Nat) none sampleDefault).2.1 rfl⟩

theorem sampleFirstInput_metadata :
    sampleFirstInput.info.m_VolumeInfo.m_MaxAABB.x = some 10 ∧
    sampleFirstInput.info.m_VolumeInfo.m_Extent.x = some 10 := by
  have h := SetInputData_info sampleFilters sampleImage (create sampleVolumeInfo) sampleCore
    (Backend.idle : Backend Nat) rfl
  constructor
  · rw [sampleFirstInput, h]
    rfl
  · rw [sampleFirstInput, h]
    simp only [deriveMetadata, Filters.ImageCast, sampleImage]
    norm_num

/-- C15, refuted as stated: on the Bound manager that the first `SetInputData` of the sample
volume leaves (MaxAABB.x = Extent.x = 10), `Update` with a property source whose primary
step-size factor is 2 and whose secondary factor is 3 sets the shadow step size to 6, whereas
the secondary factor times (MaxAABB.x / Extent.x) is 3. -/
theorem C15_counterexample :
    sampleFirstInput.info.m_pIntensity ≠ none ∧
    (Update (some sampleProperty) sampleDefault sampleFirstInput.info).m_VolumeInfo.m_StepSize =
      some 2 ∧
    (Update (some sampleProperty) sampleDefault
      sampleFirstInput.info).m_VolumeInfo.m_StepSizeShadow = some 6 ∧
    fmul sampleProperty.StepSizeFactorSecondary
      (fdiv (Update (some sampleProperty) sampleDefault
          sampleFirstInput.info).m_VolumeInfo.m_MaxAABB.x
        (Update (some sampleProperty) sampleDefault
          sampleFirstInput.info).m_VolumeInfo.m_Extent.x) = some 3 ∧
    (Update (some sampleProperty) sampleDefault
      sampleFirstInput.info).m_VolumeInfo.m_StepSizeShadow ≠
      fmul sampleProperty.StepSizeFactorSecondary
        (fdiv (Update (some sampleProperty) sampleDefault
            sampleFirstInput.info).m_VolumeInfo.m_MaxAABB.x
          (Update (some sampleProperty) sampleDefault
            sampleFirstInput.info).m_VolumeInfo.m_Extent.x) := by
  obtain ⟨hmax, hext⟩ := sampleFirstInput_metadata
  have h2 : (Update (some sampleProperty) sampleDefault
      sampleFirstInput.info).m_VolumeInfo.m_StepSize = some 2 := by
    simp only [Update, hmax, hext, sampleProperty, fmul, fdiv]
    norm_num
  have h6 : (Update (some sampleProperty) sampleDefault
      sampleFirstInput.info).m_VolumeInfo.m_StepSizeShadow = some 6 := by
    simp only [Update, hmax, hext, sampleProperty, fmul, fdiv]
    norm_num
  have h3 : fmul sampleProperty.StepSizeFactorSecondary
      (fdiv (Update (some sampleProperty) sampleDefault
          sampleFirstInput.info).m_VolumeInfo.m_MaxAABB.x
        (Update (some sampleProperty) sampleDefault
          sampleFirstInput.info).m_VolumeInfo.m_Extent.x) = some 3 := by
    simp only [Update, hmax, hext, sampleProperty, fmul, fdiv]
    norm_num
  refine ⟨by decide, h2, h6, h3, ?_⟩
  rw [h6, h3]
  norm_num

/-- C15, amended: `Update` recomputes the primary step size as the primary step-size factor
times (MaxAABB.x / Extent.x), and the secondary (shadow) step size as the secondary step-size
factor times the primary step size just computed, that is primary factor times secondary
factor times (MaxAABB.x / Extent.x).  The factors, the density scale, the gradient factor and
the shading type come from the property source when one is present and are the defaults when
it is absent, so that with no source StepSize is DefaultStepSizeFactorPrimary times
(MaxAABB.x / Extent.x). -/
theorem C15_update_step_sizes (P D : vtkErVolumeProperty) (m : vtkErVolumeInfo) :
    ((Update (some P) D m).m_VolumeInfo.m_StepSize =
        fmul P.StepSizeFactorPrimary (fdiv m.m_VolumeInfo.m_MaxAABB.x m.m_VolumeInfo.m_Extent.x) ∧
      (Update (some P) D m).m_VolumeInfo.m_StepSizeShadow =
        fmul (Update (some P) D m).m_VolumeInfo.m_StepSize P.StepSizeFactorSecondary ∧
      (Update (some P) D m).m_VolumeInfo.m_DensityScale = P.DensityScale ∧
      (Update (some P) D m).m_VolumeInfo.m_GradientFactor = P.GradientFactor ∧
      (Update (some P) D m).m_VolumeInfo.m_ShadingType = P.ShadingType) ∧
    ((Update none D m).m_VolumeInfo.m_StepSize =
        fmul D.StepSizeFactorPrimary (fdiv m.m_VolumeInfo.m_MaxAABB.x m.m_VolumeInfo.m_Extent.x) ∧
      (Update none D m).m_VolumeInfo.m_StepSizeShadow =
        fmul D.StepSizeFactorSecondary (Update none D m).m_VolumeInfo.m_StepSize ∧
      (Update none D m).m_VolumeInfo.m_DensityScale = D.DensityScale ∧
      (Update none D m).m_VolumeInfo.m_GradientFactor = D.GradientFactor ∧
      (Update none D m).m_VolumeInfo.m_ShadingType = D.ShadingType) ∧
    (∀ f1 f2 a e : ℚ, e ≠ 0 → m.m_VolumeInfo.m_MaxAABB.x = some a →
      m.m_VolumeInfo.m_Extent.x = some e →
      (P.StepSizeFactorPrimary = some f1 → P.StepSizeFactorSecondary = some f2 →
        (Update (some P) D m).m_VolumeInfo.m_StepSize = some (f1 * (a / e)) ∧
        (Update (some P) D m).m_VolumeInfo.m_StepSizeShadow = some (f1 * f2 * (a / e))) ∧
      (D.StepSizeFactorPrimary = some f1 → D.StepSizeFactorSecondary = some f2 →
        (Update none D m).m_VolumeInfo.m_StepSize = some (f1 * (a / e)) ∧
        (Update none D m).m_VolumeInfo.m_StepSizeShadow = some (f1 * f2 * (a / e)))) := by
  refine ⟨⟨rfl, rfl, rfl, rfl, rfl⟩, ⟨rfl, rfl, rfl, rfl, rfl⟩, ?_⟩
  intro f1 f2 a e he ha hx
  constructor
  · intro h1 h2
    simp only [Update, ha, hx, h1, h2, fmul, fdiv, if_neg he]
    refine ⟨trivial, ?_⟩
    congr 1
    ring
  · intro h1 h2
    simp only [Update, ha, hx, h1, h2, fmul, fdiv, if_neg he]
    refine ⟨trivial, ?_⟩
    congr 1
    ring

theorem C15_update_step_sizes_witness :
    (10 : ℚ) ≠ 0 ∧ sampleFirstInput.info.m_VolumeInfo.m_MaxAABB.x = some 10 ∧
    sampleFirstInput.info.m_VolumeInfo.m_Extent.x = some 10 ∧
    sampleProperty.StepSizeFactorPrimary = some 2 ∧
    sampleProperty.StepSizeFactorSecondary = some 3 ∧
    (Update (some sampleProperty) sampleDefault sampleFirstInput.info).m_VolumeInfo.m_StepSize =
      some (2 * (10 / 10)) ∧
    (Update (some sampleProperty) sampleDefault
      sampleFirstInput.info).m_VolumeInfo.m_StepSizeShadow = some (2 * 3 * (10 / 10)) :=
  ⟨by norm_num, sampleFirstInput_metadata.1, sampleFirstInput_metadata.2, rfl, rfl,
    ((C15_update_step_sizes sampleProperty sampleDefault sampleFirstInput.info).2.2 2 3 10 10
      (by norm_num) sampleFirstInput_metadata.1 sampleFirstInput_metadata.2).1 rfl rfl⟩

theorem BindTexture3D_effect {b : Backend T} (tex : textureReference) (ext : Int × Int × Int)
    (buf : HostPtr) (p : DevPtr) (fm : cudaTextureFilterMode) (am : cudaTextureAddressMode)
    (nrm : Bool) (h : b.allSucceed) :
    (CUDA.BindTexture3D tex ext buf p fm am nrm b).1 = none ∧
    (CUDA.BindTexture3D tex ext buf p fm am nrm b).2.1.TextureReference.ref = tex.ref ∧
    (CUDA.BindTexture3D tex ext buf p fm am nrm b).2.1.pCudaArray = some b.next ∧
    (CUDA.BindTexture3D tex ext buf p fm am nrm b).2.2.allSucceed ∧
    (CUDA.BindTexture3D tex ext buf p fm am nrm b).2.2.next = b.next + 1 ∧
    (CUDA.BindTexture3D tex ext buf p fm am nrm b).2.2.arrays =
      ⟨b.next, ext.1, ext.2.1, ext.2.2, some buf⟩ ::
        b.arrays.map (fun a => if some a.addr = some b.next then
          { a with source := some buf } else a) ∧
    (CUDA.BindTexture3D tex ext buf p fm am nrm b).2.2.textures =
      (tex.ref, some b.next) :: b.textures.filter (fun e => e.1 != tex.ref) := by
  have h1 := Backend.advance_allSucceed .cudaThreadSynchronize h
  have h2 : (((b.advance .cudaThreadSynchronize).advance (.cudaMalloc3DArray ext.1 ext.2.1 ext.2.2)).arrayAllocated
      ext.1 ext.2.1 ext.2.2).allSucceed :=
    Backend.advance_allSucceed (.cudaMalloc3DArray ext.1 ext.2.1 ext.2.2) h1
  have h3 : (((((b.advance .cudaThreadSynchronize).advance (.cudaMalloc3DArray ext.1 ext.2.1 ext.2.2)).arrayAllocated
      ext.1 ext.2.1 ext.2.2).advance
      (.cudaMemcpy3D (some (b.advance .cudaThreadSynchronize).next) buf ext.1 ext.2.1 ext.2.2)).arrayFilled
      (some (b.advance .cudaThreadSynchronize).next) buf).allSucceed :=
    Backend.advance_allSucceed (.cudaMemcpy3D (some (b.advance .cudaThreadSynchronize).next) buf ext.1 ext.2.1 ext.2.2) h2
  have h4 : (((((((b.advance .cudaThreadSynchronize).advance (.cudaMalloc3DArray ext.1 ext.2.1 ext.2.2)).arrayAllocated
      ext.1 ext.2.1 ext.2.2).advance
      (.cudaMemcpy3D (some (b.advance .cudaThreadSynchronize).next) buf ext.1 ext.2.1 ext.2.2)).arrayFilled
      (some (b.advance .cudaThreadSynchronize).next) buf).advance
      (.cudaBindTextureToArray tex.ref (some (b.advance .cudaThreadSynchronize).next))).textureBound tex.ref
      (some (b.advance .cudaThreadSynchronize).next)).allSucceed :=
    Backend.advance_allSucceed (.cudaBindTextureToArray tex.ref (some (b.advance .cudaThreadSynchronize).next)) h3
  have he : CUDA.BindTexture3D tex ext buf p fm am nrm b =
      (none, ⟨{ tex with normalized := nrm, filterMode := fm, addressMode0 := am,
                          addressMode1 := am, addressMode2 := am }, some (b.advance .cudaThreadSynchronize).next⟩,
        (((((((b.advance .cudaThreadSynchronize).advance (.cudaMalloc3DArray ext.1 ext.2.1 ext.2.2)).arrayAllocated
          ext.1 ext.2.1 ext.2.2).advance
          (.cudaMemcpy3D (some (b.advance .cudaThreadSynchronize).next) buf ext.1 ext.2.1 ext.2.2)).arrayFilled
          (some (b.advance .cudaThreadSynchronize).next) buf).advance
          (.cudaBindTextureToArray tex.ref (some (b.advance .cudaThreadSynchronize).next))).textureBound tex.ref
          (some (b.advance .cudaThreadSynchronize).next)).advance .cudaThreadSynchronize) := by
    unfold CUDA.BindTexture3D
    rw [CUDA.ThreadSynchronize_ok h]
    dsimp only
    rw [CUDA.cudaMalloc3DArray_ok p _ _ _ h1]
    dsimp only
    rw [CUDA.HandleCudaError_success]
    dsimp only
    rw [CUDA.cudaMemcpy3D_ok _ buf _ _ _ h2]
    dsimp only
    rw [CUDA.HandleCudaError_success]
    dsimp only
    rw [CUDA.cudaBindTextureToArray_ok _ _ h3]
    dsimp only
    rw [CUDA.HandleCudaError_success]
    dsimp only
    rw [CUDA.ThreadSynchronize_ok h4]
  rw [he]
  refine ⟨rfl, rfl, rfl, Backend.advance_allSucceed .cudaThreadSynchronize h4, rfl, ?_, rfl⟩
  simp [Backend.advance, Backend.arrayAllocated, Backend.arrayFilled, Backend.textureBound]

theorem SetInputData_binds_gradient_buffer_to_both_textures (F : Filters) (Input : vtkImageData)
    (m : vtkErVolumeInfo) (c : Core) {b : Backend T} (hU : m.m_pIntensity = none)
    (h : b.allSucceed) (hne : c.gTexIntensity.ref ≠ c.gTexGradientMagnitude.ref) :
    (SetInputData F (some Input) m c b).thrown = none ∧
    (SetInputData F (some Input) m c b).backend.textureSource
      (SetInputData F (some Input) m c b).core.gTexIntensity.ref =
      some (F.GradientMagnitude (F.ImageCast Input)).ScalarPointer ∧
    (SetInputData F (some Input) m c b).backend.textureSource
      (SetInputData F (some Input) m c b).core.gTexGradientMagnitude.ref =
      some (F.GradientMagnitude (F.ImageCast Input)).ScalarPointer := by
  obtain ⟨e1, er1, ep1, ha1, hn1, harr1, htex1⟩ := BindTexture3D_effect c.gTexIntensity
    ((F.ImageCast Input).Extent.a1 + 1, (F.ImageCast Input).Extent.a3 + 1,
      (F.ImageCast Input).Extent.a5 + 1)
    (F.GradientMagnitude (F.ImageCast Input)).ScalarPointer c.gpIntensityArray
    .cudaFilterModeLinear .cudaAddressModeClamp true h
  obtain ⟨e2, er2, ep2, ha2, hn2, harr2, htex2⟩ := BindTexture3D_effect c.gTexGradientMagnitude
    ((F.ImageCast Input).Extent.a1 + 1, (F.ImageCast Input).Extent.a3 + 1,
      (F.ImageCast Input).Extent.a5 + 1)
    (F.GradientMagnitude (F.ImageCast Input)).ScalarPointer c.gpGradientMagnitudeArray
    .cudaFilterModeLinear .cudaAddressModeClamp true ha1
  unfold SetInputData
  rw [if_neg (by rw [hU]; simp)]
  dsimp only
  rw [if_pos (by rw [hU]; simp)]
  simp only [BindIntensityBuffer, BindGradientMagnitudeBuffer, e1]
  refine ⟨e2, ?_, ?_⟩
  · unfold Backend.textureSource
    rw [htex2, htex1, harr2, harr1, hn1, er1]
    simp [hne, Ne.symm hne]
  · unfold Backend.textureSource
    rw [htex2, htex1, harr2, harr1, hn1, er2]
    simp

end vtkErVolumeInfo

end ExposureRender
